import Mathlib

/-!
# xiao_usarts: a shallow embedding of the three sketches

The repository holds three Arduino sketches for the SAM D21 based XIAO board
(`3usarts`, `4usarts`, `xiao_usarts`).  Each has a `setup()` that brings up the
hardware serial ports and a `loop()` that

* drains every port's receive queue to the USB serial port `Serial`, and
* sends a heartbeat on every port when that port's timer has expired.

The embedding is a state machine.  Everything the program does to the outside
world (prints, writes, flushes, `begin`, `pinPeripheral`, `delay`) is appended to
one global call trace, in program order.  What the outside world hands to the
program (clock readings, readiness of `Serial`, the results of `pinPeripheral`)
comes from oracles indexed by the number of the call.

`unsigned long` is 32 bits wide on the SAM D21: clock readings and timers are
natural numbers below `2^32` and subtraction wraps.  `int` is 32 bits wide and
is an integer kept in `[-2^31, 2^31)` by two's complement wraparound.
-/

namespace XiaoUsarts

/-! # Definitions -/

/-! ## Machine integers -/

/-- Number of values of an `unsigned long` on the SAM D21 (32 bits). -/
def ULONG_MOD : Nat := 4294967296

/-- The subtraction `a - b` of two `unsigned long` values. -/
def usub (a b : Nat) : Nat := (a % ULONG_MOD + (ULONG_MOD - b % ULONG_MOD)) % ULONG_MOD

/-- Two's complement wraparound of an integer into the range of a 32-bit `int`. -/
def wrapInt (v : Int) : Int := (v + 2147483648) % 4294967296 - 2147483648

/-! ## Ports, calls and the machine state -/

/-- The serial ports of the sketches: `Serial` (USB) and `Serial1` .. `Serial4`. -/
inductive Port where
  | usb
  | serial1
  | serial2
  | serial3
  | serial4
  deriving DecidableEq, Repr

/-- An argument of a `printf` call. -/
inductive Arg where
  | int (v : Int)
  | str (s : String)
  deriving DecidableEq, Repr

/-- The calls a sketch makes to the Arduino core, as they appear in the trace. -/
inductive Call where
  | println (p : Port) (s : String)
  | printf (p : Port) (fmt : String) (args : List Arg)
  | write (p : Port) (b : Int)
  | flush (p : Port)
  | uartBegin (p : Port) (baud : Nat)
  | pinPeripheral (pin : Nat) (periph : String)
  | delay (ms : Nat)
  deriving DecidableEq, Repr

/-- What the environment answers: the reading of the `k`-th call of `millis()`,
whether `Serial` is up at the `k`-th test of `!Serial`, and the value returned
by the `k`-th call of `pinPeripheral`. -/
structure Env where
  clock : Nat → Nat
  ready : Nat → Bool
  pinRet : Nat → Int

/-- The program state: the global variables of the sketches, the receive queues
of the four hardware ports, the trace of calls made so far, and the number of
oracle calls made so far. -/
structure Machine where
  serial1Timer : Nat
  serial2Timer : Nat
  serial3Timer : Nat
  serial4Timer : Nat
  runcount : Int
  serviceCount2 : Int
  serviceCount3 : Int
  rx1 : List Int
  rx2 : List Int
  rx3 : List Int
  rx4 : List Int
  trace : List Call
  millisCalls : Nat
  readyPolls : Nat
  pinCalls : Nat
  deriving DecidableEq, Repr

/-- The state right after the global initialisers ran: all three (four) timers
hold the same reading `t0`, the counters are zero, nothing was received. -/
def Machine.init (t0 : Nat) : Machine :=
  { serial1Timer := t0 % ULONG_MOD, serial2Timer := t0 % ULONG_MOD,
    serial3Timer := t0 % ULONG_MOD, serial4Timer := t0 % ULONG_MOD,
    runcount := 0, serviceCount2 := 0, serviceCount3 := 0,
    rx1 := [], rx2 := [], rx3 := [], rx4 := [],
    trace := [], millisCalls := 0, readyPolls := 0, pinCalls := 0 }

/-- The timer variable of a port (`serial1Timer` .. `serial4Timer`). -/
def getTimer (p : Port) (m : Machine) : Nat :=
  match p with
  | .usb => 0
  | .serial1 => m.serial1Timer
  | .serial2 => m.serial2Timer
  | .serial3 => m.serial3Timer
  | .serial4 => m.serial4Timer

/-- Assignment to the timer variable of a port. -/
def setTimer (p : Port) (t : Nat) (m : Machine) : Machine :=
  match p with
  | .usb => m
  | .serial1 => { m with serial1Timer := t }
  | .serial2 => { m with serial2Timer := t }
  | .serial3 => { m with serial3Timer := t }
  | .serial4 => { m with serial4Timer := t }

/-- The receive queue of a port, oldest byte first. -/
def getRx (p : Port) (m : Machine) : List Int :=
  match p with
  | .usb => []
  | .serial1 => m.rx1
  | .serial2 => m.rx2
  | .serial3 => m.rx3
  | .serial4 => m.rx4

/-- Replace the receive queue of a port. -/
def setRx (p : Port) (q : List Int) (m : Machine) : Machine :=
  match p with
  | .usb => m
  | .serial1 => { m with rx1 := q }
  | .serial2 => { m with rx2 := q }
  | .serial3 => { m with rx3 := q }
  | .serial4 => { m with rx4 := q }

/-! ## The Arduino core, as far as the sketches use it -/

/-- Append one call to the trace. -/
def call (c : Call) (m : Machine) : Machine := { m with trace := m.trace ++ [c] }

/-- The call `millis()`: the next clock reading, as an `unsigned long`. -/
def millis (env : Env) (m : Machine) : Nat × Machine :=
  (env.clock m.millisCalls % ULONG_MOD, { m with millisCalls := m.millisCalls + 1 })

/-- The call `Uart::available()`: the number of bytes waiting in the receive queue. -/
def available (p : Port) (m : Machine) : Nat := (getRx p m).length

/-- The call `Uart::read()`: removes and returns the oldest byte, `-1` on an empty queue. -/
def read (p : Port) (m : Machine) : Int × Machine :=
  match getRx p m with
  | [] => (-1, m)
  | b :: q => (b, setRx p q m)

/-! ## `loop()` -/

/-- Delay between successive messages on `Serial1`, in ms. -/
def SERIAL1_MESSAGE_INTERVAL : Nat := 1000

/-- Delay between successive messages on `Serial2`, in ms. -/
def SERIAL2_MESSAGE_INTERVAL : Nat := 1300

/-- Delay between successive messages on `Serial3`, in ms. -/
def SERIAL3_MESSAGE_INTERVAL : Nat := 1600

/-- Delay between successive messages on `Serial4`, in ms (`4usarts`). -/
def SERIAL4_MESSAGE_INTERVAL : Nat := 1900

/-- The drain loop of one port:
`while (SerialN.available()) { Serial.write(SerialN.read()); Serial.flush(); }`.
Every turn of the `while` uses one unit of fuel; `none` means the fuel ran out. -/
def drain : Nat → Port → Machine → Option Machine
  | 0, _, _ => none
  | fuel + 1, p, m =>
    if available p m ≠ 0 then
      let r := read p m
      let m1 := call (.write .usb r.1) r.2
      let m2 := call (.flush .usb) m1
      drain fuel p m2
    else some m

/-- The test of a timer block: `millis() - serialNTimer >= interval`, on the
reading `now` that `millis()` returned. -/
def timerDue (now last interval : Nat) : Bool := decide (interval ≤ usub now last)

/-- A timer block of `loop()`:
`if (millis() - serialNTimer >= INTERVAL) { body; serialNTimer = millis(); }`. -/
def timerBlock (env : Env) (p : Port) (interval : Nat) (body : Machine → Machine)
    (m : Machine) : Machine :=
  let r := millis env m
  if timerDue r.1 (getTimer p r.2) interval then
    let m1 := body r.2
    let r2 := millis env m1
    setTimer p r2.1 r2.2
  else r.2

/-- Body of the `Serial1` block (all three sketches):
`runcount++`, report on `Serial`, send `runcount` on `Serial1`. -/
def sendSerial1 (m : Machine) : Machine :=
  let m := { m with runcount := wrapInt (m.runcount + 1) }
  let m := call (.printf .usb "\nWriting runcount %d to Serial1\n" [.int m.runcount]) m
  let m := call (.flush .usb) m
  let m := call (.printf .serial1 "Serial1: %d\n" [.int m.runcount]) m
  call (.flush .serial1) m

/-- Body of the `Serial2` block of `3usarts` and `4usarts`: sends `runcount*2`. -/
def sendSerial2 (m : Machine) : Machine :=
  let m := call (.printf .usb "\nWriting %d to Serial2\n" [.int (wrapInt (m.runcount * 2))]) m
  let m := call (.flush .usb) m
  let m := call (.printf .serial2 "Serial2: %d\n" [.int (wrapInt (m.runcount * 2))]) m
  call (.flush .serial2) m

/-- Body of the `Serial3` block of `3usarts` and `4usarts`: sends `runcount*3`. -/
def sendSerial3 (m : Machine) : Machine :=
  let m := call (.printf .usb "\nWriting %d to Serial3\n" [.int (wrapInt (m.runcount * 3))]) m
  let m := call (.flush .usb) m
  let m := call (.printf .serial3 "Serial3: %d\n" [.int (wrapInt (m.runcount * 3))]) m
  call (.flush .serial3) m

/-- Body of the `Serial4` block of `4usarts`: sends `runcount*4`. -/
def sendSerial4 (m : Machine) : Machine :=
  let m := call (.printf .usb "\nWriting %d to Serial4\n" [.int (wrapInt (m.runcount * 4))]) m
  let m := call (.flush .usb) m
  let m := call (.printf .serial4 "Serial4: %d\n" [.int (wrapInt (m.runcount * 4))]) m
  call (.flush .serial4) m

/-- Body of the `Serial2` block of `xiao_usarts`: sends `serviceCount2`. -/
def sendServiceCount2 (m : Machine) : Machine :=
  let m := call (.printf .usb "\nWriting serviceCount2 %d to Serial2\n" [.int m.serviceCount2]) m
  let m := call (.flush .usb) m
  let m := call (.printf .serial2 "Serial2: %d\n" [.int m.serviceCount2]) m
  call (.flush .serial2) m

/-- Body of the `Serial3` block of `xiao_usarts`: sends `serviceCount3`. -/
def sendServiceCount3 (m : Machine) : Machine :=
  let m := call (.printf .usb "\nWriting serviceCount3 %d to Serial3\n" [.int m.serviceCount3]) m
  let m := call (.flush .usb) m
  let m := call (.printf .serial3 "Serial3: %d\n" [.int m.serviceCount3]) m
  call (.flush .serial3) m

/-- The sketches of the repository. -/
inductive Sketch where
  | usarts3
  | usarts4
  | xiao
  deriving DecidableEq, Repr

/-- The ports serviced by `loop()` of a sketch, in program order, each with the
interval and the body of its timer block. -/
def channels : Sketch → List (Port × Nat × (Machine → Machine))
  | .usarts3 =>
    [(.serial1, SERIAL1_MESSAGE_INTERVAL, sendSerial1),
     (.serial2, SERIAL2_MESSAGE_INTERVAL, sendSerial2),
     (.serial3, SERIAL3_MESSAGE_INTERVAL, sendSerial3)]
  | .usarts4 =>
    [(.serial1, SERIAL1_MESSAGE_INTERVAL, sendSerial1),
     (.serial2, SERIAL2_MESSAGE_INTERVAL, sendSerial2),
     (.serial3, SERIAL3_MESSAGE_INTERVAL, sendSerial3),
     (.serial4, SERIAL4_MESSAGE_INTERVAL, sendSerial4)]
  | .xiao =>
    [(.serial1, SERIAL1_MESSAGE_INTERVAL, sendSerial1),
     (.serial2, SERIAL2_MESSAGE_INTERVAL, sendServiceCount2),
     (.serial3, SERIAL3_MESSAGE_INTERVAL, sendServiceCount3)]

/-- One port's part of `loop()`: its drain loop, then its timer block. -/
def service (fuel : Nat) (env : Env) (c : Port × Nat × (Machine → Machine))
    (m : Machine) : Option Machine :=
  (drain fuel c.1 m).map (timerBlock env c.1 c.2.1 c.2.2)

/-- The ports of a `loop()` serviced one after the other. -/
def serviceAll (fuel : Nat) (env : Env) :
    List (Port × Nat × (Machine → Machine)) → Machine → Option Machine
  | [], m => some m
  | c :: cs, m => (service fuel env c m).bind (serviceAll fuel env cs)

/-- One iteration of `loop()` of a sketch. -/
def loop (sk : Sketch) (fuel : Nat) (env : Env) (m : Machine) : Option Machine :=
  serviceAll fuel env (channels sk) m

/-! ## `setup()` -/

/-- Baud rate of the hardware ports. -/
def USART_BAUD : Nat := 115200

/-- The peripheral type passed to every `pinPeripheral` call of the sketches. -/
def PIO_SERCOM_ALT : String := "PIO_SERCOM_ALT"

/-- The analog pin names of the XIAO variant are the pin numbers themselves
(`A2` is pin 2, ...), as the comments of the library headers say
(`#define PIN_SERIAL3_TX (2ul)  // TX on A2`). -/
def A2 : Nat := 2

/-- Pin A3. -/
def A3 : Nat := 3

/-- Pin A4. -/
def A4 : Nat := 4

/-- Pin A5. -/
def A5 : Nat := 5

/-- Pin A6. -/
def A6 : Nat := 6

/-- Pin A7. -/
def A7 : Nat := 7

/-- Pin A9. -/
def A9 : Nat := 9

/-- Pin A10. -/
def A10 : Nat := 10

/-- From `Serial2.h`: TX on A10. -/
def PIN_SERIAL2_TX : Nat := 10

/-- From `Serial2.h`: RX on A9. -/
def PIN_SERIAL2_RX : Nat := 9

/-- From `Serial3.h`: TX on A4. -/
def PIN_SERIAL3_TX : Nat := 4

/-- From `Serial3.h`: RX on A5. -/
def PIN_SERIAL3_RX : Nat := 5

/-- From `Serial3Alt.h`, where it is named `PIN_SERIAL3_TX`: TX on A2. -/
def PIN_SERIAL3ALT_TX : Nat := 2

/-- From `Serial3Alt.h`, where it is named `PIN_SERIAL3_RX`: RX on A3. -/
def PIN_SERIAL3ALT_RX : Nat := 3

/-- From `Serial4.h`: TX on SWCLK. -/
def PIN_SERIAL4_TX : Nat := 17

/-- From `Serial4.h`: RX on SWDIO. -/
def PIN_SERIAL4_RX : Nat := 18

/-- The arguments of a `Uart` constructor: the SERCOM module, the receive and
the transmit pin, the receive and the transmit pad. -/
structure UartDesc where
  sercom : Nat
  pinRX : Nat
  pinTX : Nat
  padRX : Nat
  padTX : Nat
  deriving DecidableEq, Repr

/-- The compile-time switches of `xiao_usarts` (`3usarts` has the first only). -/
structure Build where
  useAltSerial3 : Bool
  orderMatters : Bool
  deriving DecidableEq, Repr

/-- The descriptor of `Serial2` of `xiao_usarts`:
`Uart Serial2(&sercom0, A9, A10, SERCOM_RX_PAD_1, UART_TX_PAD_2);`. -/
def Xiao.Serial2 : UartDesc :=
  { sercom := 0, pinRX := A9, pinTX := A10, padRX := 1, padTX := 2 }

/-- The descriptor of `Serial3` of `xiao_usarts`:
`Uart Serial3(&sercom2, A3, A2, SERCOM_RX_PAD_3, UART_TX_PAD_2);` under
`USE_ALT_SERIAL3`, else
`Uart Serial3(&sercom2, A5, A4, SERCOM_RX_PAD_1, UART_TX_PAD_0);`. -/
def Xiao.Serial3 (b : Build) : UartDesc :=
  if b.useAltSerial3 then { sercom := 2, pinRX := A3, pinTX := A2, padRX := 3, padTX := 2 }
  else { sercom := 2, pinRX := A5, pinTX := A4, padRX := 1, padTX := 0 }

/-- The test `!Serial` asks whether the USB port is up. -/
def serialUp (env : Env) (m : Machine) : Bool × Machine :=
  (env.ready m.readyPolls, { m with readyPolls := m.readyPolls + 1 })

/-- The readiness wait `while (!Serial && (millis() - startserial < 10000)) ;`.
`millis()` is only called when `!Serial` holds.  Every test of the condition
uses one unit of fuel; `none` means the fuel ran out. -/
def waitSerial : Nat → Env → Nat → Machine → Option Machine
  | 0, _, _, _ => none
  | fuel + 1, env, startserial, m =>
    let r := serialUp env m
    if !r.1 then
      let t := millis env r.2
      if usub t.1 startserial < 10000 then waitSerial fuel env startserial t.2
      else some t.2
    else some r.2

/-- The countdown
`for (int i=8; i>-1; i--) { Serial.printf("\rStartup delay: %d", i); delay(1000); }`,
entered with the current value of `i`.  Every test of `i>-1` uses one unit of
fuel; `none` means the fuel ran out. -/
def countdown : Nat → Int → Machine → Option Machine
  | 0, _, _ => none
  | fuel + 1, i, m =>
    if i > -1 then
      let m := call (.printf .usb "\rStartup delay: %d" [.int i]) m
      let m := call (.delay 1000) m
      countdown fuel (wrapInt (i - 1)) m
    else some m

/-- The start of `setup()`, the same text in the three sketches: the readiness
wait, the announcement and the countdown. -/
def startup (fuel : Nat) (env : Env) (m : Machine) : Option Machine := do
  let r := millis env m
  let m ← waitSerial fuel env r.1 r.2
  let m := call (.println .usb "8 second initial delay") m
  countdown fuel 8 m

/-- The call `pinPeripheral(pin, PIO_SERCOM_ALT)`: the call is traced, its result comes
from the environment. -/
def pinPeripheral (env : Env) (pin : Nat) (periph : String) (m : Machine) : Int × Machine :=
  (env.pinRet m.pinCalls,
    { call (.pinPeripheral pin periph) m with pinCalls := m.pinCalls + 1 })

/-- The loop `for (int i = lo; i < hi; i++) body(i)` with constant bounds. -/
def forUp {σ : Type} (lo hi : Nat) (body : Nat → σ → σ) (s : σ) : σ :=
  (List.range' lo (hi - lo)).foldl (fun s i => body i s) s

/-- The middle of `setup()` of `xiao_usarts`: greeting, `Serial1.begin`, and for
`Serial2` and `Serial3` the `begin` and the two `pinPeripheral` calls in the
order chosen by `ORDER_MATTERS`.  Returns the array `error[4]`. -/
def Xiao.bringUp (b : Build) (env : Env) (m : Machine) : List Int × Machine :=
  let error : List Int := [0, 0, 0, 0]
  let m := call (.println .usb "\n\nxiao_usarts") m
  let m := call (.println .usb "------------") m
  let m := call (.println .usb "Setting up Serial1") m
  let m := call (.uartBegin .serial1 USART_BAUD) m
  let m := call (.println .usb "Setting up Serial2") m
  let r2 : List Int × Machine :=
    if b.orderMatters then
      let m := call (.uartBegin .serial2 USART_BAUD) m
      let r := pinPeripheral env A10 PIO_SERCOM_ALT m
      let error := error.set 0 r.1
      let r := pinPeripheral env A9 PIO_SERCOM_ALT r.2
      let error := error.set 1 r.1
      (error, r.2)
    else
      let r := pinPeripheral env A10 PIO_SERCOM_ALT m
      let error := error.set 0 r.1
      let r := pinPeripheral env A9 PIO_SERCOM_ALT r.2
      let error := error.set 1 r.1
      (error, call (.uartBegin .serial2 USART_BAUD) r.2)
  let error := r2.1
  let m := call (.println .usb "Setting up Serial3") r2.2
  if b.orderMatters then
    let m := call (.uartBegin .serial3 USART_BAUD) m
    let r := pinPeripheral env A2 PIO_SERCOM_ALT m
    let error := error.set 2 r.1
    let r := pinPeripheral env A3 PIO_SERCOM_ALT r.2
    let error := error.set 3 r.1
    (error, r.2)
  else
    let r := pinPeripheral env A2 PIO_SERCOM_ALT m
    let error := error.set 2 r.1
    let r := pinPeripheral env A3 PIO_SERCOM_ALT r.2
    let error := error.set 3 r.1
    (error, call (.uartBegin .serial3 USART_BAUD) r.2)

/-- The pin named by the error report for the call with index `i`
(`switch (i) { case 0: pin = A10; ... }`); for another index `pin` keeps its
value. -/
def Xiao.reportPin (i : Nat) (pin : Int) : Int :=
  match i with
  | 0 => A10
  | 1 => A9
  | 2 => A2
  | 3 => A3
  | _ => pin

/-- The error report of `setup()` of `xiao_usarts`: count the non-zero entries
of `error[4]`; if there are any, print the count and one line per non-zero entry,
else print the success message.  The local `int pin` is not initialised by the
source; every path that prints it assigns it first. -/
def Xiao.report (error : List Int) (m : Machine) : Machine :=
  let errors : Int :=
    forUp 0 4 (fun i errors => if error.getD i 0 ≠ 0 then wrapInt (errors + 1) else errors) 0
  if errors ≠ 0 then
    let m := call (.printf .usb "** %d error%s while setting up the serial ports **\n"
      [.int errors, .str (if errors > 1 then "s" else "")]) m
    (forUp 0 4 (fun i (s : Int × Machine) =>
      if error.getD i 0 ≠ 0 then
        let pin := Xiao.reportPin i s.1
        (pin, call (.printf .usb "  Pin A%d could not be reassigned to PIO_SERCOM_ALT\n"
          [.int pin]) s.2)
      else s) (0, m)).2
  else call (.println .usb "\nInitialized all serial ports without error.") m

/-- The end of `setup()` of the three sketches. -/
def finish (m : Machine) : Machine :=
  call (.flush .usb) (call (.println .usb "Setup completed, starting loop") m)

/-- The function `setup()` of `xiao_usarts`. -/
def Xiao.setup (b : Build) (fuel : Nat) (env : Env) (m : Machine) : Option Machine := do
  let m ← startup fuel env m
  let r := Xiao.bringUp b env m
  let m := Xiao.report r.1 r.2
  some (finish m)

/-- The middle of `setup()` of `3usarts`; `Serial3` is `Serial3Alt` under
`USE_ALT_SERIAL3`, and `PIN_SERIAL3_TX`, `PIN_SERIAL3_RX` come from the header
that was included. -/
def Usarts3.bringUp (useAltSerial3 : Bool) (env : Env) (m : Machine) : Machine :=
  let tx3 := if useAltSerial3 then PIN_SERIAL3ALT_TX else PIN_SERIAL3_TX
  let rx3 := if useAltSerial3 then PIN_SERIAL3ALT_RX else PIN_SERIAL3_RX
  let m := call (.println .usb "\n\n3usarts") m
  let m := call (.println .usb "-------") m
  let m := call (.println .usb "Setting up Serial1") m
  let m := call (.uartBegin .serial1 USART_BAUD) m
  let m := call (.println .usb "Setting up Serial2") m
  let m := call (.uartBegin .serial2 USART_BAUD) m
  let m := (pinPeripheral env PIN_SERIAL2_TX PIO_SERCOM_ALT m).2
  let m := (pinPeripheral env PIN_SERIAL2_RX PIO_SERCOM_ALT m).2
  let m := call (.println .usb "Setting up Serial3") m
  let m := call (.uartBegin .serial3 USART_BAUD) m
  let m := (pinPeripheral env tx3 PIO_SERCOM_ALT m).2
  (pinPeripheral env rx3 PIO_SERCOM_ALT m).2

/-- The function `setup()` of `3usarts`. -/
def Usarts3.setup (useAltSerial3 : Bool) (fuel : Nat) (env : Env) (m : Machine) :
    Option Machine := do
  let m ← startup fuel env m
  some (finish (Usarts3.bringUp useAltSerial3 env m))

/-- The middle of `setup()` of `4usarts`. -/
def Usarts4.bringUp (env : Env) (m : Machine) : Machine :=
  let m := call (.println .usb "\n\nxiao_4usarts") m
  let m := call (.println .usb "------------") m
  let m := call (.println .usb "Setting up Serial1") m
  let m := call (.uartBegin .serial1 USART_BAUD) m
  let m := call (.println .usb "Setting up Serial2") m
  let m := call (.uartBegin .serial2 USART_BAUD) m
  let m := (pinPeripheral env PIN_SERIAL2_TX PIO_SERCOM_ALT m).2
  let m := (pinPeripheral env PIN_SERIAL2_RX PIO_SERCOM_ALT m).2
  let m := call (.println .usb "Setting up Serial3") m
  let m := call (.uartBegin .serial3 USART_BAUD) m
  let m := (pinPeripheral env PIN_SERIAL3_TX PIO_SERCOM_ALT m).2
  let m := (pinPeripheral env PIN_SERIAL3_RX PIO_SERCOM_ALT m).2
  let m := call (.println .usb "Setting up Serial4") m
  let m := call (.uartBegin .serial4 USART_BAUD) m
  let m := (pinPeripheral env PIN_SERIAL4_TX PIO_SERCOM_ALT m).2
  (pinPeripheral env PIN_SERIAL4_RX PIO_SERCOM_ALT m).2

/-- The function `setup()` of `4usarts`. -/
def Usarts4.setup (fuel : Nat) (env : Env) (m : Machine) : Option Machine := do
  let m ← startup fuel env m
  some (finish (Usarts4.bringUp env m))

/-! ## Interrupt handlers of `xiao_usarts` -/

/-- The handler `SERCOM0_Handler`: `serviceCount2++; Serial2.IrqHandler();`.  `IrqHandler`
belongs to the Arduino core; it acts on the `Uart` object, which in this model
is the receive queue of the port. -/
def Xiao.SERCOM0_Handler (IrqHandler : List Int → List Int) (m : Machine) : Machine :=
  let m := { m with serviceCount2 := wrapInt (m.serviceCount2 + 1) }
  setRx .serial2 (IrqHandler (getRx .serial2 m)) m

/-- The handler `SERCOM2_Handler`: `serviceCount3++; Serial3.IrqHandler();`. -/
def Xiao.SERCOM2_Handler (IrqHandler : List Int → List Int) (m : Machine) : Machine :=
  let m := { m with serviceCount3 := wrapInt (m.serviceCount3 + 1) }
  setRx .serial3 (IrqHandler (getRx .serial3 m)) m

/-! ## C1: the firing test of a timer block, definitions -/

/-- The wrapped clock of the witness of C1: every reading is true time `2^32 + 5`. -/
def wrappedEnv : Env :=
  { clock := fun _ => 4294967301, ready := fun _ => true, pinRet := fun _ => 0 }

/-! ## C2: the value stored in the timer, definitions -/

/-- A clock that drifts: the `k`-th reading is `1000 + 5 * k`. -/
def driftEnv : Env :=
  { clock := fun k => 1000 + 5 * k, ready := fun _ => true, pinRet := fun _ => 0 }

/-! ## C3: the drain loop, definitions -/

/-- The calls by which the drain loop forwards the bytes of a queue: for each
byte one `Serial.write` followed by one `Serial.flush`. -/
def forwarded (q : List Int) : List Call :=
  q.flatMap (fun b => [Call.write .usb b, Call.flush .usb])

/-- A state of `3usarts` in which `Serial2` has received the bytes 72, 105, 10. -/
def machineWithBytes : Machine := { Machine.init 0 with rx2 := [72, 105, 10] }

/-! ## C4: the 3200 ms scenario of `3usarts`, definitions -/

/-- The ideal clock at millisecond `t`: no time passes inside an iteration of
`loop()`, every call of `millis()` made by the iteration returns `t`. -/
def idealEnv (t : Nat) : Env :=
  { clock := fun _ => t, ready := fun _ => true, pinRet := fun _ => 0 }

/-- Bytes that arrived on the hardware ports since the previous iteration are
appended to the receive queues. -/
def receive (arr : Port → List Int) (m : Machine) : Machine :=
  { m with rx1 := m.rx1 ++ arr .serial1, rx2 := m.rx2 ++ arr .serial2,
           rx3 := m.rx3 ++ arr .serial3, rx4 := m.rx4 ++ arr .serial4 }

/-- The run of a sketch under the ideal clock: `loop()` is iterated `n` times, at
the milliseconds `t`, `t + 1`, ..., `t + n - 1`; before the iteration at
millisecond `s` the bytes `arr s` arrive. -/
def runIdeal (sk : Sketch) (fuel : Nat) (arr : Nat → Port → List Int) :
    Nat → Nat → Machine → Option Machine
  | 0, _, m => some m
  | n + 1, t, m =>
    (loop sk fuel (idealEnv t) (receive (arr t) m)).bind (runIdeal sk fuel arr n (t + 1))

/-- The counter value carried by a call, if the call is a `printf` on port `p`
with one integer argument (the heartbeats and their reports are the only such
calls of `loop()`). -/
def counterOf (p : Port) : Call → Option Int
  | Call.printf q _ [Arg.int v] => if q = p then some v else none
  | _ => none

/-- The counter values of the heartbeats sent on a port, in the order of the
trace. -/
def sent (p : Port) (tr : List Call) : List Int := tr.filterMap (counterOf p)

/-- A state of `3usarts` with empty receive queues. -/
def idle3 (t1 t2 t3 : Nat) (rc : Int) (tr : List Call) (k : Nat) : Machine :=
  { Machine.init 0 with
    serial1Timer := t1, serial2Timer := t2, serial3Timer := t3, runcount := rc,
    trace := tr, millisCalls := k }

/-- The calls of a heartbeat of `3usarts`: the report on `Serial` and the message
on the port, each followed by a flush. -/
def beat (p : Port) (report message : String) (v : Int) : List Call :=
  [Call.printf .usb report [Arg.int v], Call.flush .usb,
   Call.printf p message [Arg.int v], Call.flush p]

def beat1 (v : Int) : List Call :=
  beat .serial1 "\nWriting runcount %d to Serial1\n" "Serial1: %d\n" v

def beat2 (v : Int) : List Call :=
  beat .serial2 "\nWriting %d to Serial2\n" "Serial2: %d\n" v

def beat3 (v : Int) : List Call :=
  beat .serial3 "\nWriting %d to Serial3\n" "Serial3: %d\n" v

/-- The heartbeats of the scenario, in the order in which they are sent. -/
def beats3200 : List Call :=
  beat1 1 ++ beat2 2 ++ beat3 3 ++ beat1 2 ++ beat2 4 ++ beat1 3 ++ beat3 9

/-- Two states carry the same heartbeats: they agree on the timers, on the
counters, on the number of clock readings used, and on the counter values sent
on every port.  They may differ in the receive queues and in the bytes forwarded
to `Serial`. -/
def SameBeats (m m0 : Machine) : Prop :=
  m.serial1Timer = m0.serial1Timer ∧ m.serial2Timer = m0.serial2Timer ∧
  m.serial3Timer = m0.serial3Timer ∧ m.serial4Timer = m0.serial4Timer ∧
  m.runcount = m0.runcount ∧ m.serviceCount2 = m0.serviceCount2 ∧
  m.serviceCount3 = m0.serviceCount3 ∧ m.millisCalls = m0.millisCalls ∧
  ∀ p, sent p m.trace = sent p m0.trace

/-- Bytes for the witness of C4: the heartbeat text `"S1\n"` arrives on `Serial2`
before the iteration at millisecond 1001, nothing else arrives. -/
def echoArrivals (t : Nat) (p : Port) : List Int :=
  if t = 1001 ∧ p = .serial2 then [83, 49, 10] else []

/-! ## The call trace of `setup()` of `xiao_usarts`, definitions -/

/-- The pins passed to `pinPeripheral`, in the order of the trace. -/
def pinsPassed (tr : List Call) : List Nat :=
  tr.filterMap (fun c => match c with
    | Call.pinPeripheral pin _ => some pin
    | _ => none)

/-- The calls that bring up the ports (`begin` and `pinPeripheral`), in the order
of the trace. -/
def bringUpCalls (tr : List Call) : List Call :=
  tr.filter (fun c => match c with
    | Call.uartBegin _ _ => true
    | Call.pinPeripheral _ _ => true
    | _ => false)

/-- The calls made by the middle of `setup()` of `xiao_usarts`. -/
def Xiao.bringUpTrace (b : Build) : List Call :=
  [Call.println .usb "\n\nxiao_usarts", Call.println .usb "------------",
   Call.println .usb "Setting up Serial1", Call.uartBegin .serial1 115200,
   Call.println .usb "Setting up Serial2"] ++
  (if b.orderMatters then
    [Call.uartBegin .serial2 115200, Call.pinPeripheral 10 "PIO_SERCOM_ALT",
     Call.pinPeripheral 9 "PIO_SERCOM_ALT"]
   else
    [Call.pinPeripheral 10 "PIO_SERCOM_ALT", Call.pinPeripheral 9 "PIO_SERCOM_ALT",
     Call.uartBegin .serial2 115200]) ++
  [Call.println .usb "Setting up Serial3"] ++
  (if b.orderMatters then
    [Call.uartBegin .serial3 115200, Call.pinPeripheral 2 "PIO_SERCOM_ALT",
     Call.pinPeripheral 3 "PIO_SERCOM_ALT"]
   else
    [Call.pinPeripheral 2 "PIO_SERCOM_ALT", Call.pinPeripheral 3 "PIO_SERCOM_ALT",
     Call.uartBegin .serial3 115200])

/-- The four values returned to `setup()` by its `pinPeripheral` calls. -/
def pinResults (env : Env) (m : Machine) : List Int :=
  [env.pinRet m.pinCalls, env.pinRet (m.pinCalls + 1), env.pinRet (m.pinCalls + 2),
   env.pinRet (m.pinCalls + 3)]

/-- The lines of the error report: the count line, then one line per non-zero
result, naming the pin of the call. -/
def Xiao.reportLines (e0 e1 e2 e3 : Int) : List Call :=
  if e0 = 0 ∧ e1 = 0 ∧ e2 = 0 ∧ e3 = 0 then
    [Call.println .usb "\nInitialized all serial ports without error."]
  else
    Call.printf .usb "** %d error%s while setting up the serial ports **\n"
        [.int ([e0, e1, e2, e3].countP (fun e => e ≠ 0)),
         .str (if [e0, e1, e2, e3].countP (fun e => e ≠ 0) > 1 then "s" else "")] ::
      (([(e0, A10), (e1, A9), (e2, A2), (e3, A3)].filter (fun x => x.1 ≠ 0)).map
        (fun x => Call.printf .usb "  Pin A%d could not be reassigned to PIO_SERCOM_ALT\n"
          [.int x.2]))

/-! ## C5: the pins routed by `setup()`, definitions -/

/-- The build of `xiao_usarts` as it is in the repository: neither
`USE_ALT_SERIAL3` nor `ORDER_MATTERS` is defined. -/
def Xiao.defaultBuild : Build := { useAltSerial3 := false, orderMatters := false }

/-! ## The start of `setup()`, definitions -/

/-- The calls of the countdown: for `i` = 8, 7, ..., 0 one `printf` and one
`delay(1000)`. -/
def countdownCalls : List Call :=
  ([8, 7, 6, 5, 4, 3, 2, 1, 0] : List Int).flatMap
    (fun i => [Call.printf .usb "\rStartup delay: %d" [.int i], Call.delay 1000])

/-- The calls made by the start of `setup()`. -/
def startupCalls : List Call :=
  Call.println .usb "8 second initial delay" :: countdownCalls

/-! ## C7: `ORDER_MATTERS`, definitions -/

/-- An environment in which `Serial` is up at once and the second and the
fourth `pinPeripheral` call fail. -/
def failingEnv : Env :=
  { clock := fun k => 2000 * k, ready := fun _ => true,
    pinRet := fun k => if k = 1 ∨ k = 3 then -1 else 0 }

/-- The state in which `setup()` of the witness of C7 ends, `ORDER_MATTERS`
defined. -/
def afterSetupOrdered : Machine :=
  (Xiao.setup { useAltSerial3 := false, orderMatters := true } 10 failingEnv
    (Machine.init 0)).getD (Machine.init 0)

/-- The state in which `setup()` of the witness of C7 ends, `ORDER_MATTERS` not
defined. -/
def afterSetupDefault : Machine :=
  (Xiao.setup { useAltSerial3 := false, orderMatters := false } 10 failingEnv
    (Machine.init 0)).getD (Machine.init 0)

/-! ## C8: pin routing failures do not reach `loop()`, definitions -/

/-- What happens to `xiao_usarts` after `setup()`: an iteration of `loop()`, or
the interrupt of a port on which a byte has arrived. -/
inductive Xiao.Event where
  | iterate
  | byte1 (b : Int)
  | byte2 (b : Int)
  | byte3 (b : Int)
  deriving DecidableEq, Repr

/-- The effect of `Uart::IrqHandler()` when the byte `b` has arrived: the byte
is stored at the tail of the receive queue. -/
def storeByte (b : Int) (q : List Int) : List Int := q ++ [b]

/-- One event of a run of `xiao_usarts`.  The interrupt of `Serial1` is handled
by the Arduino core, those of `Serial2` and `Serial3` by the handlers of the
sketch. -/
def Xiao.step (fuel : Nat) (env : Env) : Xiao.Event → Machine → Option Machine
  | .iterate, m => loop .xiao fuel env m
  | .byte1 b, m => some (setRx .serial1 (storeByte b (getRx .serial1 m)) m)
  | .byte2 b, m => some (Xiao.SERCOM0_Handler (storeByte b) m)
  | .byte3 b, m => some (Xiao.SERCOM2_Handler (storeByte b) m)

/-- A run of `xiao_usarts` after `setup()`: the events one after the other. -/
def Xiao.exec (fuel : Nat) (env : Env) : List Xiao.Event → Machine → Option Machine
  | [], m => some m
  | e :: es, m => (Xiao.step fuel env e m).bind (Xiao.exec fuel env es)

/-- The state `m` with the calls `tr` put in front of its trace. -/
def prefixed (tr : List Call) (m : Machine) : Machine := { m with trace := tr ++ m.trace }

/-- The environment `failingEnv` with every `pinPeripheral` call succeeding. -/
def succeedingEnv : Env := { failingEnv with pinRet := fun _ => 0 }

/-- The state after `setup()` of the default build when no call fails. -/
def afterSetupClean : Machine :=
  (Xiao.setup Xiao.defaultBuild 10 succeedingEnv (Machine.init 0)).getD (Machine.init 0)

/-- The events of the witness of C8: a byte arrives on `Serial2`, then two
iterations of `loop()`. -/
def sampleEvents : List Xiao.Event := [.byte2 65, .iterate, .iterate]

/-- The end of the run of the witness of C8 when no call failed. -/
def afterRunClean : Machine :=
  (Xiao.exec 3 succeedingEnv sampleEvents afterSetupClean).getD (Machine.init 0)

/-- The end of the run of the witness of C8 when two calls failed. -/
def afterRunFailing : Machine :=
  (Xiao.exec 3 failingEnv sampleEvents afterSetupDefault).getD (Machine.init 0)

/-! ## C9: the channel table of `4usarts`, definitions -/

/-- The descriptor of `Serial1`, the default port of the board, as the header
comment of `4usarts.cpp` gives it: SERCOM4, TX on A6 (pad 0), RX on A7 (pad 1). -/
def Usarts4.Serial1 : UartDesc :=
  { sercom := 4, pinRX := A7, pinTX := A6, padRX := 1, padTX := 0 }

/-- The descriptor of `Serial2` of `4usarts`: SERCOM0 by the header comment of
`4usarts.cpp`, pins and pads by `Serial2.h`. -/
def Usarts4.Serial2 : UartDesc :=
  { sercom := 0, pinRX := PIN_SERIAL2_RX, pinTX := PIN_SERIAL2_TX, padRX := 1, padTX := 2 }

/-- The descriptor of `Serial3` of `4usarts`: SERCOM2 by the header comment of
`4usarts.cpp`, pins and pads by `Serial3.h`. -/
def Usarts4.Serial3 : UartDesc :=
  { sercom := 2, pinRX := PIN_SERIAL3_RX, pinTX := PIN_SERIAL3_TX, padRX := 1, padTX := 0 }

/-- The descriptor of `Serial4` of `4usarts`: SERCOM1 by the header comment of
`4usarts.cpp`, pins and pads by `Serial4.h`. -/
def Usarts4.Serial4 : UartDesc :=
  { sercom := 1, pinRX := PIN_SERIAL4_RX, pinTX := PIN_SERIAL4_TX, padRX := 3, padTX := 2 }

/-- The four ports of `4usarts`. -/
def Usarts4.table : List UartDesc :=
  [Usarts4.Serial1, Usarts4.Serial2, Usarts4.Serial3, Usarts4.Serial4]

/-- The interrupt handler that the library header of an extra port declares:
`void SERCOM0_Handler(void);` in `Serial2.h`, `void SERCOM2_Handler(void);` in
`Serial3.h`, `void SERCOM1_Handler(void);` in `Serial4.h`. -/
def Usarts4.declaredHandler : Port → String
  | .serial2 => "SERCOM0_Handler"
  | .serial3 => "SERCOM2_Handler"
  | .serial4 => "SERCOM1_Handler"
  | _ => ""

/-- The name of the interrupt vector of the SERCOM module `n`. -/
def sercomHandlerName (n : Nat) : String := "SERCOM" ++ toString n ++ "_Handler"

/-! ## C11: the readiness wait, definitions -/

/-- An environment in which `Serial` never comes up; the clock advances by 5000
ms from one reading to the next. -/
def neverReadyEnv : Env :=
  { clock := fun k => 5000 * k, ready := fun _ => false, pinRet := fun _ => 0 }

/-! ## C13: the startup countdown, definitions -/

/-- The delays requested by the calls of a trace, in ms. -/
def delaysOf (tr : List Call) : List Nat :=
  tr.filterMap (fun c => match c with
    | Call.delay ms => some ms
    | _ => none)

/-! ## C12: the counter values of successive heartbeats, definitions -/

/-- A run of a sketch after `setup()`: `loop()` is iterated `n` times under the
clock of `env`; before the iteration number `i` the bytes `arr i` arrive. -/
def run (sk : Sketch) (fuel : Nat) (env : Env) (arr : Nat → Port → List Int) :
    Nat → Nat → Machine → Option Machine
  | 0, _, m => some m
  | n + 1, i, m =>
    (loop sk fuel env (receive (arr i) m)).bind (run sk fuel env arr n (i + 1))

/-- A non-decreasing clock under which `Serial2` of `3usarts` fires twice while
`Serial1` fires once: the readings are 1000, 1000, 1300, 1300, 1300, 1999 and
2600 from then on. -/
def stallEnv : Env :=
  { clock := fun k =>
      if k < 2 then 1000 else if k < 5 then 1300 else if k < 6 then 1999 else 2600,
    ready := fun _ => true, pinRet := fun _ => 0 }

/-- The state of `3usarts` after two iterations of `loop()` under `stallEnv`. -/
def afterStall : Machine :=
  (run .usarts3 1 stallEnv (fun _ _ => []) 2 0 (Machine.init 0)).getD (Machine.init 0)

/-- The counters sent so far are in order and bounded by what `runcount` allows:
the values sent on `Serial1` increase strictly and are at most `runcount`, the
values sent on `Serial2`, `Serial3`, `Serial4` never decrease and are at most
`runcount` times 2, 3, 4; `runcount` lies between 0 and `B`. -/
def CountersOk (B : Int) (m : Machine) : Prop :=
  0 ≤ m.runcount ∧ m.runcount ≤ B ∧
  (sent .serial1 m.trace).Pairwise (fun a b => a < b) ∧
  (∀ v ∈ sent .serial1 m.trace, v ≤ m.runcount) ∧
  (sent .serial2 m.trace).Pairwise (fun a b => a ≤ b) ∧
  (∀ v ∈ sent .serial2 m.trace, v ≤ m.runcount * 2) ∧
  (sent .serial3 m.trace).Pairwise (fun a b => a ≤ b) ∧
  (∀ v ∈ sent .serial3 m.trace, v ≤ m.runcount * 3) ∧
  (sent .serial4 m.trace).Pairwise (fun a b => a ≤ b) ∧
  (∀ v ∈ sent .serial4 m.trace, v ≤ m.runcount * 4)

/-- The state `m` with the receive queues emptied. -/
def emptied (m : Machine) : Machine := { m with rx1 := [], rx2 := [], rx3 := [], rx4 := [] }

/-! # Theorems -/

/-! ## Basic facts about the core operations -/

theorem usub_eq_emod (a b : Nat) :
    (usub a b : Int) = ((a : Int) - (b : Int)) % 4294967296 := by
  unfold usub ULONG_MOD
  omega

theorem usub_lt (a b : Nat) : usub a b < 4294967296 := by
  unfold usub ULONG_MOD
  omega

@[simp] theorem call_trace (c : Call) (m : Machine) : (call c m).trace = m.trace ++ [c] := rfl

@[simp] theorem millis_trace (env : Env) (m : Machine) : (millis env m).2.trace = m.trace := rfl

@[simp] theorem millis_reading (env : Env) (m : Machine) :
    (millis env m).1 = env.clock m.millisCalls % ULONG_MOD := rfl

@[simp] theorem setTimer_trace (p : Port) (t : Nat) (m : Machine) :
    (setTimer p t m).trace = m.trace := by
  cases p <;> rfl

@[simp] theorem getTimer_millis (env : Env) (p : Port) (m : Machine) :
    getTimer p (millis env m).2 = getTimer p m := by
  cases p <;> rfl

/-- Every timer block body of the three sketches appends four calls to the
trace: a report and a flush on `Serial`, the heartbeat and a flush on the port. -/
theorem body_trace_length (sk : Sketch) (c : Port × Nat × (Machine → Machine))
    (hc : c ∈ channels sk) (m : Machine) :
    (c.2.2 m).trace.length = m.trace.length + 4 := by
  cases sk
  · simp only [channels, List.mem_cons, List.mem_singleton, List.not_mem_nil, or_false] at hc
    rcases hc with rfl | rfl | rfl <;> simp [sendSerial1, sendSerial2, sendSerial3]
  · simp only [channels, List.mem_cons, List.mem_singleton, List.not_mem_nil, or_false] at hc
    rcases hc with rfl | rfl | rfl | rfl <;>
      simp [sendSerial1, sendSerial2, sendSerial3, sendSerial4]
  · simp only [channels, List.mem_cons, List.mem_singleton, List.not_mem_nil, or_false] at hc
    rcases hc with rfl | rfl | rfl <;>
      simp [sendSerial1, sendServiceCount2, sendServiceCount3]

/-- A timer block whose test fails only consumes one clock reading. -/
theorem timerBlock_not_due (env : Env) (p : Port) (iv : Nat) (body : Machine → Machine)
    (m : Machine) (h : timerDue (env.clock m.millisCalls % ULONG_MOD) (getTimer p m) iv = false) :
    timerBlock env p iv body m = { m with millisCalls := m.millisCalls + 1 } := by
  have h1 : timerDue (millis env m).1 (getTimer p (millis env m).2) iv = false := by
    simpa using h
  simp only [timerBlock, h1, Bool.false_eq_true, if_false]
  rfl

/-- A timer block whose test succeeds runs the body and stores a second clock
reading in the timer. -/
theorem timerBlock_due (env : Env) (p : Port) (iv : Nat) (body : Machine → Machine)
    (m : Machine) (h : timerDue (env.clock m.millisCalls % ULONG_MOD) (getTimer p m) iv = true) :
    timerBlock env p iv body m =
      setTimer p (millis env (body (millis env m).2)).1 (millis env (body (millis env m).2)).2 := by
  have h1 : timerDue (millis env m).1 (getTimer p (millis env m).2) iv = true := by
    simpa using h
  simp only [timerBlock, h1, if_true]

theorem timerBlock_trace_ne_iff (sk : Sketch) (c : Port × Nat × (Machine → Machine))
    (hc : c ∈ channels sk) (env : Env) (m : Machine) :
    (timerBlock env c.1 c.2.1 c.2.2 m).trace ≠ m.trace ↔
      timerDue (env.clock m.millisCalls % ULONG_MOD) (getTimer c.1 m) c.2.1 = true := by
  cases h : timerDue (env.clock m.millisCalls % ULONG_MOD) (getTimer c.1 m) c.2.1
  · rw [timerBlock_not_due env c.1 c.2.1 c.2.2 m h]
    simp
  · rw [timerBlock_due env c.1 c.2.1 c.2.2 m h]
    have hlen := body_trace_length sk c hc (millis env m).2
    simp only [setTimer_trace, millis_trace] at hlen ⊢
    simp only [ne_eq, iff_true]
    intro heq
    rw [heq] at hlen
    omega

theorem channels_interval (sk : Sketch) (c : Port × Nat × (Machine → Machine))
    (hc : c ∈ channels sk) :
    c.2.1 = (match c.1 with
      | .usb => 0 | .serial1 => 1000 | .serial2 => 1300 | .serial3 => 1600
      | .serial4 => 1900) := by
  cases sk <;>
    simp only [channels, List.mem_cons, List.mem_singleton, List.not_mem_nil, or_false] at hc
  · rcases hc with rfl | rfl | rfl <;> rfl
  · rcases hc with rfl | rfl | rfl | rfl <;> rfl
  · rcases hc with rfl | rfl | rfl <;> rfl

/-! ## C1: the firing test of a timer block -/

/-- C1: for every channel of `loop()` of every sketch, every clock reading `now`
and every stored timer value `last`, the heartbeat branch of the channel's timer
block is taken (the block adds calls to the trace) if and only if
`(now - last) mod 2^32` is at least the channel's interval, which is 1000, 1300,
1600, 1900 ms for `Serial1` .. `Serial4`.  In particular, when the timer was
stored at true time `t` and the clock is read at true time `t + d` with
`d < 2^32`, the branch is taken if and only if `d` is at least the interval, also
when `t + d` has wrapped past `2^32 - 1` and `t` has not. -/
theorem timer_block_fires_iff (sk : Sketch) (c : Port × Nat × (Machine → Machine))
    (hc : c ∈ channels sk) (env : Env) (m : Machine) :
    ((timerBlock env c.1 c.2.1 c.2.2 m).trace ≠ m.trace ↔
      (c.2.1 : Int) ≤
        (((env.clock m.millisCalls % 4294967296 : Nat) : Int) - (getTimer c.1 m : Int))
          % 4294967296) ∧
    (∀ t d : Nat, d < 4294967296 → getTimer c.1 m = t % 4294967296 →
      env.clock m.millisCalls = t + d →
      ((timerBlock env c.1 c.2.1 c.2.2 m).trace ≠ m.trace ↔ c.2.1 ≤ d)) ∧
    c.2.1 = (match c.1 with
      | .usb => 0 | .serial1 => 1000 | .serial2 => 1300 | .serial3 => 1600
      | .serial4 => 1900) := by
  refine ⟨?_, ?_, channels_interval sk c hc⟩
  · rw [timerBlock_trace_ne_iff sk c hc env m]
    have h := usub_eq_emod (env.clock m.millisCalls % 4294967296) (getTimer c.1 m)
    simp only [timerDue, decide_eq_true_eq, ULONG_MOD]
    omega
  · intro t d hd hlast hnow
    rw [timerBlock_trace_ne_iff sk c hc env m]
    simp only [timerDue, decide_eq_true_eq, ULONG_MOD, usub, hlast, hnow]
    omega

/-- Witness of C1: `Serial1` of `4usarts`, timer stored 500 ms before the clock
wraps, clock read 5 ms after it wrapped. -/
theorem timer_block_fires_iff_witness :
    (4294966796 : Nat) = 4294966796 % 4294967296 ∧
    ((timerBlock wrappedEnv .serial1 SERIAL1_MESSAGE_INTERVAL sendSerial1
        (Machine.init 4294966796)).trace ≠ (Machine.init 4294966796).trace ↔
      SERIAL1_MESSAGE_INTERVAL ≤ 505) :=
  ⟨by decide,
    (timer_block_fires_iff .usarts4 (.serial1, SERIAL1_MESSAGE_INTERVAL, sendSerial1)
      (by simp [channels]) wrappedEnv (Machine.init 4294966796)).2.1 4294966796 505
      (by decide) (by decide) (by decide)⟩

/-! ## C2: the value stored in the timer -/

/-- No timer block body calls `millis()`. -/
theorem body_millisCalls (sk : Sketch) (c : Port × Nat × (Machine → Machine))
    (hc : c ∈ channels sk) (m : Machine) : (c.2.2 m).millisCalls = m.millisCalls := by
  cases sk <;>
    simp only [channels, List.mem_cons, List.mem_singleton, List.not_mem_nil, or_false] at hc
  · rcases hc with rfl | rfl | rfl <;> rfl
  · rcases hc with rfl | rfl | rfl | rfl <;> rfl
  · rcases hc with rfl | rfl | rfl <;> rfl

/-- The channels of `loop()` are hardware ports, never `Serial`. -/
theorem channels_port_ne_usb (sk : Sketch) (c : Port × Nat × (Machine → Machine))
    (hc : c ∈ channels sk) : c.1 ≠ Port.usb := by
  cases sk <;>
    simp only [channels, List.mem_cons, List.mem_singleton, List.not_mem_nil, or_false] at hc
  · rcases hc with rfl | rfl | rfl <;> simp
  · rcases hc with rfl | rfl | rfl | rfl <;> simp
  · rcases hc with rfl | rfl | rfl <;> simp

theorem getTimer_setTimer (p : Port) (hp : p ≠ Port.usb) (t : Nat) (m : Machine) :
    getTimer p (setTimer p t m) = t := by
  cases p
  · exact absurd rfl hp
  all_goals rfl

/-- C2, counterexample: with the non-decreasing clock `1000, 1005, 1010, ...` and
`serial1Timer = 0` the `Serial1` block of `3usarts` fires on the reading 1000,
and the value then stored in `serial1Timer` is 1005, the next reading, not the
reading that was compared. -/
theorem timer_stores_compared_reading_counterexample :
    Monotone driftEnv.clock ∧
    (channels .usarts3).head? = some (.serial1, SERIAL1_MESSAGE_INTERVAL, sendSerial1) ∧
    (millis driftEnv (Machine.init 0)).1 = 1000 ∧
    timerDue (millis driftEnv (Machine.init 0)).1 (Machine.init 0).serial1Timer
      SERIAL1_MESSAGE_INTERVAL = true ∧
    (timerBlock driftEnv .serial1 SERIAL1_MESSAGE_INTERVAL sendSerial1
      (Machine.init 0)).serial1Timer = 1005 ∧
    (timerBlock driftEnv .serial1 SERIAL1_MESSAGE_INTERVAL sendSerial1
      (Machine.init 0)).serial1Timer ≠ (millis driftEnv (Machine.init 0)).1 := by
  refine ⟨?_, rfl, by decide, by decide, by decide, by decide⟩
  intro a b hab
  simp only [driftEnv]
  omega

/-- C2, amended: whenever the timer block of a channel of `loop()` fires, the
value stored afterwards in the channel's timer is the reading of the second
call of `millis()`, the one made after the heartbeat was sent and flushed; it is
the reading that was compared in the firing test whenever the clock returns the
same reading to both calls. -/
theorem timer_stores_second_reading (sk : Sketch) (c : Port × Nat × (Machine → Machine))
    (hc : c ∈ channels sk) (env : Env) (m : Machine)
    (hdue : timerDue (millis env m).1 (getTimer c.1 m) c.2.1 = true) :
    getTimer c.1 (timerBlock env c.1 c.2.1 c.2.2 m)
      = env.clock (m.millisCalls + 1) % ULONG_MOD ∧
    (env.clock (m.millisCalls + 1) = env.clock m.millisCalls →
      getTimer c.1 (timerBlock env c.1 c.2.1 c.2.2 m) = (millis env m).1) := by
  have hstore : getTimer c.1 (timerBlock env c.1 c.2.1 c.2.2 m)
      = env.clock (m.millisCalls + 1) % ULONG_MOD := by
    rw [timerBlock_due env c.1 c.2.1 c.2.2 m (by simpa using hdue),
      getTimer_setTimer c.1 (channels_port_ne_usb sk c hc), millis_reading,
      body_millisCalls sk c hc]
    rfl
  refine ⟨hstore, ?_⟩
  intro hsame
  rw [hstore, hsame, millis_reading]

/-- Witness of C2 amended: the `Serial1` block of `3usarts` under the drifting
clock stores the second reading. -/
theorem timer_stores_second_reading_witness :
    timerDue (millis driftEnv (Machine.init 0)).1 (getTimer .serial1 (Machine.init 0))
      SERIAL1_MESSAGE_INTERVAL = true ∧
    getTimer .serial1 (timerBlock driftEnv .serial1 SERIAL1_MESSAGE_INTERVAL sendSerial1
      (Machine.init 0)) = driftEnv.clock (0 + 1) % ULONG_MOD :=
  ⟨by decide,
    (timer_stores_second_reading .usarts3 (.serial1, SERIAL1_MESSAGE_INTERVAL, sendSerial1)
      (by simp [channels]) driftEnv (Machine.init 0) (by decide)).1⟩

/-! ## C3: the drain loop -/

theorem setRx_nil_of_empty (p : Port) (m : Machine) (h : getRx p m = []) :
    setRx p [] { m with trace := m.trace ++ forwarded [] } = m := by
  cases m
  cases p <;> simp_all [getRx, setRx, forwarded]

theorem drain_step (p : Port) (b : Int) (q : List Int) (m : Machine)
    (h : getRx p m = b :: q) :
    getRx p (call (.flush .usb) (call (.write .usb b) (setRx p q m))) = q ∧
    setRx p [] { call (.flush .usb) (call (.write .usb b) (setRx p q m)) with
        trace := (call (.flush .usb) (call (.write .usb b) (setRx p q m))).trace
          ++ forwarded q }
      = setRx p [] { m with trace := m.trace ++ forwarded (b :: q) } := by
  cases m
  cases p <;> simp_all [getRx, setRx, forwarded, call]

theorem drain_eq (fuel : Nat) (p : Port) (m : Machine) (hfuel : (getRx p m).length < fuel) :
    drain fuel p m = some (setRx p [] { m with trace := m.trace ++ forwarded (getRx p m) }) := by
  induction fuel generalizing m with
  | zero => omega
  | succ n ih =>
    cases hq : getRx p m with
    | nil =>
      simp only [drain, available, hq, List.length_nil, ne_eq, not_true_eq_false, if_false]
      rw [setRx_nil_of_empty p m hq]
    | cons b q =>
      have hstep := drain_step p b q m hq
      simp only [drain, available, read, hq, List.length_cons, ne_eq, Nat.add_one_ne_zero,
        not_false_eq_true, if_true]
      rw [ih _ (by rw [hstep.1]; rw [hq] at hfuel; simp only [List.length_cons] at hfuel; omega),
        hstep.1, hstep.2]

theorem getRx_setRx_self (p : Port) (m : Machine) (q : List Int) (hp : p ≠ Port.usb) :
    getRx p (setRx p q m) = q := by
  cases p
  · exact absurd rfl hp
  all_goals rfl

theorem getRx_setRx_other (p r : Port) (m : Machine) (q : List Int) (hne : r ≠ p) :
    getRx r (setRx p q m) = getRx r m := by
  cases p <;> cases r <;> first | rfl | exact absurd rfl hne

/-- C3: for every content `q` of the receive queue of a port of `loop()` (no byte
arriving meanwhile), the drain loop of the port terminates as soon as it is
given more than `|q|` turns; it leaves the queue empty; the calls it makes are
exactly one `Serial.write` per byte of `q`, in queue order, each followed at once
by one `Serial.flush`; it makes no call on a hardware serial port; and it changes
nothing else in the program state, in particular no other port's queue. -/
theorem drain_forwards_queue (sk : Sketch) (c : Port × Nat × (Machine → Machine))
    (hc : c ∈ channels sk) (fuel : Nat) (m : Machine)
    (hfuel : (getRx c.1 m).length < fuel) :
    ∃ m1, drain fuel c.1 m = some m1 ∧
      getRx c.1 m1 = [] ∧
      m1.trace = m.trace ++ (getRx c.1 m).flatMap (fun b => [Call.write .usb b, Call.flush .usb]) ∧
      (∀ r : Port, r ≠ c.1 → getRx r m1 = getRx r m) ∧
      m1 = setRx c.1 [] { m with trace := m1.trace } := by
  refine ⟨_, drain_eq fuel c.1 m hfuel, ?_, ?_, ?_, ?_⟩
  · exact getRx_setRx_self c.1 _ [] (channels_port_ne_usb sk c hc)
  · cases c.1 <;> rfl
  · intro r hr
    rw [getRx_setRx_other c.1 r _ [] hr]
    cases r <;> rfl
  · cases c.1 <;> rfl

/-- Witness of C3: draining three bytes from `Serial2` with four turns of fuel. -/
theorem drain_forwards_queue_witness :
    ∃ m1, drain 4 .serial2 machineWithBytes = some m1 ∧
      getRx .serial2 m1 = [] ∧
      m1.trace = machineWithBytes.trace ++
        (getRx .serial2 machineWithBytes).flatMap
          (fun b => [Call.write .usb b, Call.flush .usb]) ∧
      (∀ r : Port, r ≠ .serial2 → getRx r m1 = getRx r machineWithBytes) ∧
      m1 = setRx .serial2 [] { machineWithBytes with trace := m1.trace } :=
  drain_forwards_queue .usarts3 (.serial2, SERIAL2_MESSAGE_INTERVAL, sendSerial2)
    (by simp [channels]) 4 machineWithBytes (by decide)

/-! ## C4: the 3200 ms scenario of `3usarts` -/

theorem receive_nothing (m : Machine) : receive (fun _ => []) m = m := by
  simp [receive]

theorem runIdeal_add (sk : Sketch) (fuel : Nat) (arr : Nat → Port → List Int)
    (a b t : Nat) (m : Machine) :
    runIdeal sk fuel arr (a + b) t m
      = (runIdeal sk fuel arr a t m).bind (runIdeal sk fuel arr b (t + a)) := by
  induction a generalizing t m with
  | zero => simp [runIdeal]
  | succ n ih =>
    rw [show n + 1 + b = (n + b) + 1 by omega]
    simp only [runIdeal]
    cases h : loop sk fuel (idealEnv t) (receive (arr t) m) with
    | none => simp
    | some m1 =>
      simp only [Option.some_bind]
      rw [ih, show t + 1 + n = t + (n + 1) by omega]

theorem runIdeal_one (sk : Sketch) (fuel : Nat) (arr : Nat → Port → List Int)
    (t : Nat) (m : Machine) :
    runIdeal sk fuel arr 1 t m = loop sk fuel (idealEnv t) (receive (arr t) m) := by
  simp only [runIdeal]
  cases loop sk fuel (idealEnv t) (receive (arr t) m) <;> rfl

/-- An iteration of `loop()` of `3usarts` in which nothing is received and no
timer is due only consumes three clock readings. -/
theorem loop3_quiet (fuel t t1 t2 t3 : Nat) (rc : Int) (tr : List Call) (k : Nat)
    (h1 : usub (t % ULONG_MOD) t1 < 1000) (h2 : usub (t % ULONG_MOD) t2 < 1300)
    (h3 : usub (t % ULONG_MOD) t3 < 1600) :
    loop .usarts3 (fuel + 1) (idealEnv t) (idle3 t1 t2 t3 rc tr k)
      = some (idle3 t1 t2 t3 rc tr (k + 3)) := by
  have d1 : timerDue (t % ULONG_MOD) t1 1000 = false := by simp [timerDue, h1]
  have d2 : timerDue (t % ULONG_MOD) t2 1300 = false := by simp [timerDue, h2]
  have d3 : timerDue (t % ULONG_MOD) t3 1600 = false := by simp [timerDue, h3]
  simp [loop, channels, serviceAll, service, drain, available, getRx, idle3, Machine.init,
    timerBlock, millis, idealEnv, getTimer, d1, d2, d3, SERIAL1_MESSAGE_INTERVAL,
    SERIAL2_MESSAGE_INTERVAL, SERIAL3_MESSAGE_INTERVAL]

/-- A stretch of `n` iterations in which nothing is received and no timer
becomes due leaves the state as it is, apart from the clock readings used. -/
theorem runIdeal3_quiet (fuel n t t1 t2 t3 : Nat) (rc : Int) (tr : List Call) (k : Nat)
    (h : ∀ s, t ≤ s → s < t + n →
      usub (s % ULONG_MOD) t1 < 1000 ∧ usub (s % ULONG_MOD) t2 < 1300 ∧
        usub (s % ULONG_MOD) t3 < 1600) :
    runIdeal .usarts3 (fuel + 1) (fun _ _ => []) n t (idle3 t1 t2 t3 rc tr k)
      = some (idle3 t1 t2 t3 rc tr (k + 3 * n)) := by
  induction n generalizing t k with
  | zero => simp [runIdeal]
  | succ n ih =>
    obtain ⟨h1, h2, h3⟩ := h t (Nat.le_refl t) (by omega)
    simp only [runIdeal, receive_nothing]
    rw [loop3_quiet fuel t t1 t2 t3 rc tr k h1 h2 h3]
    simp only [Option.some_bind]
    rw [ih (t + 1) (k + 3) (fun s hs1 hs2 => h s (by omega) (by omega))]
    congr 2
    omega

theorem loop3_at_1000 (fuel : Nat) :
    loop .usarts3 (fuel + 1) (idealEnv 1000) (idle3 0 0 0 0 [] 3000)
      = some (idle3 1000 0 0 1 (beat1 1) 3004) := by
  simp [loop, channels, serviceAll, service, drain, available, getRx, idle3, Machine.init,
    timerBlock, millis, idealEnv, getTimer, setTimer, timerDue, usub, ULONG_MOD, sendSerial1,
    call, wrapInt, beat, beat1, SERIAL1_MESSAGE_INTERVAL,
    SERIAL2_MESSAGE_INTERVAL, SERIAL3_MESSAGE_INTERVAL]

theorem loop3_at_1300 (fuel : Nat) :
    loop .usarts3 (fuel + 1) (idealEnv 1300) (idle3 1000 0 0 1 (beat1 1) 3901)
      = some (idle3 1000 1300 0 1 (beat1 1 ++ beat2 2) 3905) := by
  simp [loop, channels, serviceAll, service, drain, available, getRx, idle3, Machine.init,
    timerBlock, millis, idealEnv, getTimer, setTimer, timerDue, usub, ULONG_MOD, sendSerial2,
    call, wrapInt, beat, beat1, beat2, beat3, SERIAL1_MESSAGE_INTERVAL,
    SERIAL2_MESSAGE_INTERVAL, SERIAL3_MESSAGE_INTERVAL]

theorem loop3_at_1600 (fuel : Nat) :
    loop .usarts3 (fuel + 1) (idealEnv 1600) (idle3 1000 1300 0 1 (beat1 1 ++ beat2 2) 4802)
      = some (idle3 1000 1300 1600 1 (beat1 1 ++ beat2 2 ++ beat3 3) 4806) := by
  simp [loop, channels, serviceAll, service, drain, available, getRx, idle3, Machine.init,
    timerBlock, millis, idealEnv, getTimer, setTimer, timerDue, usub, ULONG_MOD, sendSerial3,
    call, wrapInt, beat, beat1, beat2, beat3, SERIAL1_MESSAGE_INTERVAL,
    SERIAL2_MESSAGE_INTERVAL, SERIAL3_MESSAGE_INTERVAL]

theorem loop3_at_2000 (fuel : Nat) :
    loop .usarts3 (fuel + 1) (idealEnv 2000) (idle3 1000 1300 1600 1 (beat1 1 ++ beat2 2 ++ beat3 3) 6003)
      = some (idle3 2000 1300 1600 2 (beat1 1 ++ beat2 2 ++ beat3 3 ++ beat1 2) 6007) := by
  simp [loop, channels, serviceAll, service, drain, available, getRx, idle3, Machine.init,
    timerBlock, millis, idealEnv, getTimer, setTimer, timerDue, usub, ULONG_MOD, sendSerial1,
    call, wrapInt, beat, beat1, beat2, beat3, SERIAL1_MESSAGE_INTERVAL,
    SERIAL2_MESSAGE_INTERVAL, SERIAL3_MESSAGE_INTERVAL]

theorem loop3_at_2600 (fuel : Nat) :
    loop .usarts3 (fuel + 1) (idealEnv 2600) (idle3 2000 1300 1600 2 (beat1 1 ++ beat2 2 ++ beat3 3 ++ beat1 2) 7804)
      = some (idle3 2000 2600 1600 2 (beat1 1 ++ beat2 2 ++ beat3 3 ++ beat1 2 ++ beat2 4) 7808) := by
  simp [loop, channels, serviceAll, service, drain, available, getRx, idle3, Machine.init,
    timerBlock, millis, idealEnv, getTimer, setTimer, timerDue, usub, ULONG_MOD, sendSerial2,
    call, wrapInt, beat, beat1, beat2, beat3, SERIAL1_MESSAGE_INTERVAL,
    SERIAL2_MESSAGE_INTERVAL, SERIAL3_MESSAGE_INTERVAL]

theorem loop3_at_3000 (fuel : Nat) :
    loop .usarts3 (fuel + 1) (idealEnv 3000) (idle3 2000 2600 1600 2 (beat1 1 ++ beat2 2 ++ beat3 3 ++ beat1 2 ++ beat2 4) 9005)
      = some (idle3 3000 2600 1600 3 (beat1 1 ++ beat2 2 ++ beat3 3 ++ beat1 2 ++ beat2 4 ++ beat1 3) 9009) := by
  simp [loop, channels, serviceAll, service, drain, available, getRx, idle3, Machine.init,
    timerBlock, millis, idealEnv, getTimer, setTimer, timerDue, usub, ULONG_MOD, sendSerial1,
    call, wrapInt, beat, beat1, beat2, beat3, SERIAL1_MESSAGE_INTERVAL,
    SERIAL2_MESSAGE_INTERVAL, SERIAL3_MESSAGE_INTERVAL]

theorem loop3_at_3200 (fuel : Nat) :
    loop .usarts3 (fuel + 1) (idealEnv 3200) (idle3 3000 2600 1600 3 (beat1 1 ++ beat2 2 ++ beat3 3 ++ beat1 2 ++ beat2 4 ++ beat1 3) 9606)
      = some (idle3 3000 2600 3200 3 (beat1 1 ++ beat2 2 ++ beat3 3 ++ beat1 2 ++ beat2 4 ++ beat1 3 ++ beat3 9) 9610) := by
  simp [loop, channels, serviceAll, service, drain, available, getRx, idle3, Machine.init,
    timerBlock, millis, idealEnv, getTimer, setTimer, timerDue, usub, ULONG_MOD, sendSerial3,
    call, wrapInt, beat, beat1, beat2, beat3, SERIAL1_MESSAGE_INTERVAL,
    SERIAL2_MESSAGE_INTERVAL, SERIAL3_MESSAGE_INTERVAL]

/-- A stretch of `n` quiet iterations followed by one iteration in which a timer
fires, with nothing received. -/
theorem runIdeal3_segment (fuel n rest t t1 t2 t3 : Nat) (rc : Int) (tr : List Call)
    (k : Nat) (m1 : Machine)
    (hq : t + n ≤ 4294967296 ∧ t1 ≤ t ∧ t2 ≤ t ∧ t3 ≤ t ∧ t + n ≤ t1 + 1000 ∧
        t + n ≤ t2 + 1300 ∧ t + n ≤ t3 + 1600)
    (hfire : loop .usarts3 (fuel + 1) (idealEnv (t + n)) (idle3 t1 t2 t3 rc tr (k + 3 * n))
      = some m1) :
    runIdeal .usarts3 (fuel + 1) (fun _ _ => []) (n + (1 + rest)) t (idle3 t1 t2 t3 rc tr k)
      = runIdeal .usarts3 (fuel + 1) (fun _ _ => []) rest (t + n + 1) m1 := by
  rw [runIdeal_add,
    runIdeal3_quiet fuel n t t1 t2 t3 rc tr k (by
      intro s hs1 hs2
      simp only [usub, ULONG_MOD]
      omega)]
  simp only [Option.some_bind]
  rw [runIdeal_add, runIdeal_one, receive_nothing, hfire]
  simp only [Option.some_bind]

/-- The scenario with nothing received: the state after the iterations at the
milliseconds 0 .. 3200. -/
theorem runIdeal3_idle (fuel : Nat) :
    runIdeal .usarts3 (fuel + 1) (fun _ _ => []) 3201 0 (idle3 0 0 0 0 [] 0)
      = some (idle3 3000 2600 3200 3 beats3200 9610) :=
  (runIdeal3_segment fuel 1000 2200 0 0 0 0 0 [] 0 _ (by omega) (loop3_at_1000 fuel)).trans <|
  (runIdeal3_segment fuel 299 1900 1001 1000 0 0 1 _ 3004 _ (by omega)
    (loop3_at_1300 fuel)).trans <|
  (runIdeal3_segment fuel 299 1600 1301 1000 1300 0 1 _ 3905 _ (by omega)
    (loop3_at_1600 fuel)).trans <|
  (runIdeal3_segment fuel 399 1200 1601 1000 1300 1600 1 _ 4806 _ (by omega)
    (loop3_at_2000 fuel)).trans <|
  (runIdeal3_segment fuel 599 600 2001 2000 1300 1600 2 _ 6007 _ (by omega)
    (loop3_at_2600 fuel)).trans <|
  (runIdeal3_segment fuel 399 200 2601 2000 2600 1600 2 _ 7808 _ (by omega)
    (loop3_at_3000 fuel)).trans <|
  (runIdeal3_segment fuel 199 0 3001 3000 2600 1600 3 _ 9009 _ (by omega)
    (loop3_at_3200 fuel)).trans rfl

theorem sent_append (p : Port) (a b : List Call) : sent p (a ++ b) = sent p a ++ sent p b := by
  simp [sent, List.filterMap_append]

theorem sent_forwarded (p : Port) (q : List Int) : sent p (forwarded q) = [] := by
  induction q with
  | nil => rfl
  | cons b q ih =>
    have h : forwarded (b :: q) = [Call.write .usb b, Call.flush .usb] ++ forwarded q := by
      simp [forwarded]
    rw [h, sent_append, ih]
    rfl

theorem SameBeats.refl (m : Machine) : SameBeats m m :=
  ⟨rfl, rfl, rfl, rfl, rfl, rfl, rfl, rfl, fun _ => rfl⟩

theorem SameBeats.trans {a b c : Machine} (h1 : SameBeats a b) (h2 : SameBeats b c) :
    SameBeats a c := by
  obtain ⟨a1, a2, a3, a4, a5, a6, a7, a8, a9⟩ := h1
  obtain ⟨b1, b2, b3, b4, b5, b6, b7, b8, b9⟩ := h2
  exact ⟨a1.trans b1, a2.trans b2, a3.trans b3, a4.trans b4, a5.trans b5, a6.trans b6,
    a7.trans b7, a8.trans b8, fun p => (a9 p).trans (b9 p)⟩

theorem sameBeats_receive (arr : Port → List Int) (m : Machine) :
    SameBeats (receive arr m) m :=
  ⟨rfl, rfl, rfl, rfl, rfl, rfl, rfl, rfl, fun _ => rfl⟩

/-- Draining changes neither the timers nor the counters nor the heartbeats. -/
theorem sameBeats_drained (p : Port) (q : List Int) (m : Machine) :
    SameBeats (setRx p [] { m with trace := m.trace ++ forwarded q }) m := by
  cases p <;>
    exact ⟨rfl, rfl, rfl, rfl, rfl, rfl, rfl, rfl, fun r => by
      simp [setRx, sent_append, sent_forwarded]⟩

theorem getTimer_eq_of_sameBeats {m m0 : Machine} (h : SameBeats m m0) (p : Port) :
    getTimer p m = getTimer p m0 := by
  obtain ⟨a1, a2, a3, a4, -⟩ := h
  cases p <;> simp [getTimer, a1, a2, a3, a4]

theorem sameBeats_call (c : Call) {m m0 : Machine} (h : SameBeats m m0) :
    SameBeats (call c m) (call c m0) := by
  obtain ⟨a1, a2, a3, a4, a5, a6, a7, a8, a9⟩ := h
  refine ⟨a1, a2, a3, a4, a5, a6, a7, a8, fun p => ?_⟩
  rw [call_trace, call_trace, sent_append, sent_append, a9 p]

theorem sameBeats_runcount (v : Int) {m m0 : Machine} (h : SameBeats m m0) :
    SameBeats { m with runcount := v } { m0 with runcount := v } := by
  obtain ⟨a1, a2, a3, a4, -, a6, a7, a8, a9⟩ := h
  exact ⟨a1, a2, a3, a4, rfl, a6, a7, a8, a9⟩

theorem sameBeats_sendSerial1 {m m0 : Machine} (h : SameBeats m m0) :
    SameBeats (sendSerial1 m) (sendSerial1 m0) := by
  have e : ∀ x : Machine, sendSerial1 x =
      call (.flush .serial1) (call (.printf .serial1 "Serial1: %d\n" [.int (wrapInt (x.runcount + 1))])
        (call (.flush .usb) (call (.printf .usb "\nWriting runcount %d to Serial1\n" [.int (wrapInt (x.runcount + 1))])
          { x with runcount := wrapInt (x.runcount + 1) }))) := fun _ => rfl
  have hr : m.runcount = m0.runcount := h.2.2.2.2.1
  rw [e m, e m0, hr]
  exact sameBeats_call _ (sameBeats_call _ (sameBeats_call _ (sameBeats_call _
    (sameBeats_runcount _ h))))

theorem sameBeats_sendSerial2 {m m0 : Machine} (h : SameBeats m m0) :
    SameBeats (sendSerial2 m) (sendSerial2 m0) := by
  have e : ∀ x : Machine, sendSerial2 x =
      call (.flush .serial2) (call (.printf .serial2 "Serial2: %d\n" [.int (wrapInt (x.runcount * 2))])
        (call (.flush .usb) (call (.printf .usb "\nWriting %d to Serial2\n" [.int (wrapInt (x.runcount * 2))])
          x))) := fun _ => rfl
  have hr : m.runcount = m0.runcount := h.2.2.2.2.1
  rw [e m, e m0, hr]
  exact sameBeats_call _ (sameBeats_call _ (sameBeats_call _ (sameBeats_call _
    h)))

theorem sameBeats_sendSerial3 {m m0 : Machine} (h : SameBeats m m0) :
    SameBeats (sendSerial3 m) (sendSerial3 m0) := by
  have e : ∀ x : Machine, sendSerial3 x =
      call (.flush .serial3) (call (.printf .serial3 "Serial3: %d\n" [.int (wrapInt (x.runcount * 3))])
        (call (.flush .usb) (call (.printf .usb "\nWriting %d to Serial3\n" [.int (wrapInt (x.runcount * 3))])
          x))) := fun _ => rfl
  have hr : m.runcount = m0.runcount := h.2.2.2.2.1
  rw [e m, e m0, hr]
  exact sameBeats_call _ (sameBeats_call _ (sameBeats_call _ (sameBeats_call _
    h)))

theorem sameBeats_sendSerial4 {m m0 : Machine} (h : SameBeats m m0) :
    SameBeats (sendSerial4 m) (sendSerial4 m0) := by
  have e : ∀ x : Machine, sendSerial4 x =
      call (.flush .serial4) (call (.printf .serial4 "Serial4: %d\n" [.int (wrapInt (x.runcount * 4))])
        (call (.flush .usb) (call (.printf .usb "\nWriting %d to Serial4\n" [.int (wrapInt (x.runcount * 4))])
          x))) := fun _ => rfl
  have hr : m.runcount = m0.runcount := h.2.2.2.2.1
  rw [e m, e m0, hr]
  exact sameBeats_call _ (sameBeats_call _ (sameBeats_call _ (sameBeats_call _
    h)))

theorem sameBeats_sendServiceCount2 {m m0 : Machine} (h : SameBeats m m0) :
    SameBeats (sendServiceCount2 m) (sendServiceCount2 m0) := by
  have e : ∀ x : Machine, sendServiceCount2 x =
      call (.flush .serial2) (call (.printf .serial2 "Serial2: %d\n" [.int (x.serviceCount2)])
        (call (.flush .usb) (call (.printf .usb "\nWriting serviceCount2 %d to Serial2\n" [.int (x.serviceCount2)])
          x))) := fun _ => rfl
  have hr : m.serviceCount2 = m0.serviceCount2 := h.2.2.2.2.2.1
  rw [e m, e m0, hr]
  exact sameBeats_call _ (sameBeats_call _ (sameBeats_call _ (sameBeats_call _
    h)))

theorem sameBeats_sendServiceCount3 {m m0 : Machine} (h : SameBeats m m0) :
    SameBeats (sendServiceCount3 m) (sendServiceCount3 m0) := by
  have e : ∀ x : Machine, sendServiceCount3 x =
      call (.flush .serial3) (call (.printf .serial3 "Serial3: %d\n" [.int (x.serviceCount3)])
        (call (.flush .usb) (call (.printf .usb "\nWriting serviceCount3 %d to Serial3\n" [.int (x.serviceCount3)])
          x))) := fun _ => rfl
  have hr : m.serviceCount3 = m0.serviceCount3 := h.2.2.2.2.2.2.1
  rw [e m, e m0, hr]
  exact sameBeats_call _ (sameBeats_call _ (sameBeats_call _ (sameBeats_call _
    h)))

/-- The timer block bodies send the same heartbeat from states that carry the
same heartbeats. -/
theorem sameBeats_body (sk : Sketch) (c : Port × Nat × (Machine → Machine))
    (hc : c ∈ channels sk) {m m0 : Machine} (h : SameBeats m m0) :
    SameBeats (c.2.2 m) (c.2.2 m0) := by
  cases sk <;>
    simp only [channels, List.mem_cons, List.mem_singleton, List.not_mem_nil, or_false] at hc
  · rcases hc with rfl | rfl | rfl
    · exact sameBeats_sendSerial1 h
    · exact sameBeats_sendSerial2 h
    · exact sameBeats_sendSerial3 h
  · rcases hc with rfl | rfl | rfl | rfl
    · exact sameBeats_sendSerial1 h
    · exact sameBeats_sendSerial2 h
    · exact sameBeats_sendSerial3 h
    · exact sameBeats_sendSerial4 h
  · rcases hc with rfl | rfl | rfl
    · exact sameBeats_sendSerial1 h
    · exact sameBeats_sendServiceCount2 h
    · exact sameBeats_sendServiceCount3 h

theorem sameBeats_millis (env : Env) {m m0 : Machine} (h : SameBeats m m0) :
    SameBeats (millis env m).2 (millis env m0).2 ∧ (millis env m).1 = (millis env m0).1 := by
  obtain ⟨a1, a2, a3, a4, a5, a6, a7, a8, a9⟩ := h
  exact ⟨⟨a1, a2, a3, a4, a5, a6, a7, by simp [millis, a8], a9⟩, by simp [millis, a8]⟩

theorem sameBeats_setTimer (p : Port) (t : Nat) {m m0 : Machine} (h : SameBeats m m0) :
    SameBeats (setTimer p t m) (setTimer p t m0) := by
  obtain ⟨a1, a2, a3, a4, a5, a6, a7, a8, a9⟩ := h
  cases p <;> exact ⟨by first | exact a1 | rfl, by first | exact a2 | rfl,
    by first | exact a3 | rfl, by first | exact a4 | rfl, a5, a6, a7, a8, a9⟩

/-- A timer block takes the same decision and sends the same heartbeat from two
states that carry the same heartbeats. -/
theorem sameBeats_timerBlock (sk : Sketch) (c : Port × Nat × (Machine → Machine))
    (hc : c ∈ channels sk) (env : Env) {m m0 : Machine} (h : SameBeats m m0) :
    SameBeats (timerBlock env c.1 c.2.1 c.2.2 m) (timerBlock env c.1 c.2.1 c.2.2 m0) := by
  have hm := sameBeats_millis env h
  have ht := getTimer_eq_of_sameBeats hm.1 c.1
  simp only [timerBlock]
  rw [hm.2, ht]
  split
  · have hb := sameBeats_body sk c hc hm.1
    have hm2 := sameBeats_millis env hb
    rw [hm2.2]
    exact sameBeats_setTimer c.1 _ hm2.1
  · exact hm.1

theorem getRx_millis (env : Env) (r : Port) (m : Machine) :
    getRx r (millis env m).2 = getRx r m := by
  cases r <;> rfl

theorem getRx_setTimer (p r : Port) (t : Nat) (m : Machine) :
    getRx r (setTimer p t m) = getRx r m := by
  cases p <;> cases r <;> rfl

/-- No timer block body touches a receive queue. -/
theorem getRx_body (sk : Sketch) (c : Port × Nat × (Machine → Machine))
    (hc : c ∈ channels sk) (r : Port) (m : Machine) : getRx r (c.2.2 m) = getRx r m := by
  cases sk <;>
    simp only [channels, List.mem_cons, List.mem_singleton, List.not_mem_nil, or_false] at hc
  · rcases hc with rfl | rfl | rfl <;> cases r <;>
      simp only [getRx, sendSerial1, sendSerial2, sendSerial3, call]
  · rcases hc with rfl | rfl | rfl | rfl <;> cases r <;>
      simp only [getRx, sendSerial1, sendSerial2, sendSerial3, sendSerial4, call]
  · rcases hc with rfl | rfl | rfl <;> cases r <;>
      simp only [getRx, sendSerial1, sendServiceCount2, sendServiceCount3, call]

theorem getRx_timerBlock (sk : Sketch) (c : Port × Nat × (Machine → Machine))
    (hc : c ∈ channels sk) (env : Env) (r : Port) (m : Machine) :
    getRx r (timerBlock env c.1 c.2.1 c.2.2 m) = getRx r m := by
  simp only [timerBlock]
  split
  · rw [getRx_setTimer, getRx_millis, getRx_body sk c hc, getRx_millis]
  · rw [getRx_millis]

/-- Servicing one port from a state with bytes waiting and from a state that
carries the same heartbeats and has nothing waiting on the port. -/
theorem service_sameBeats (sk : Sketch) (c : Port × Nat × (Machine → Machine))
    (hc : c ∈ channels sk) (fuel fuel0 : Nat) (env : Env) {m m0 : Machine}
    (h : SameBeats m m0) (hfuel : (getRx c.1 m).length < fuel) (h0 : getRx c.1 m0 = []) :
    ∃ m1 m01, service fuel env c m = some m1 ∧ service (fuel0 + 1) env c m0 = some m01 ∧
      SameBeats m1 m01 ∧ getRx c.1 m1 = [] ∧
      (∀ r, r ≠ c.1 → getRx r m1 = getRx r m) ∧ (∀ r, getRx r m01 = getRx r m0) := by
  have hd := drain_eq fuel c.1 m hfuel
  have hd0 := drain_eq (fuel0 + 1) c.1 m0 (by rw [h0]; simp)
  rw [h0, setRx_nil_of_empty c.1 m0 h0] at hd0
  refine ⟨_, _, by rw [service, hd]; rfl, by rw [service, hd0]; rfl, ?_, ?_, ?_, ?_⟩
  · exact sameBeats_timerBlock sk c hc env ((sameBeats_drained c.1 _ m).trans h)
  · rw [getRx_timerBlock sk c hc]
    exact getRx_setRx_self c.1 _ [] (channels_port_ne_usb sk c hc)
  · intro r hr
    rw [getRx_timerBlock sk c hc, getRx_setRx_other c.1 r _ [] hr]
    cases r <;> rfl
  · intro r
    rw [getRx_timerBlock sk c hc]

/-- Servicing a list of distinct ports, as `service_sameBeats`. -/
theorem serviceAll_sameBeats (sk : Sketch) (fuel fuel0 : Nat) (env : Env)
    (cs : List (Port × Nat × (Machine → Machine))) (hcs : ∀ c ∈ cs, c ∈ channels sk)
    (hnd : (cs.map (fun c => c.1)).Nodup) {m m0 : Machine}
    (h : SameBeats m m0) (hfuel : ∀ c ∈ cs, (getRx c.1 m).length < fuel)
    (h0 : ∀ c ∈ cs, getRx c.1 m0 = []) :
    ∃ m1 m01, serviceAll fuel env cs m = some m1 ∧
      serviceAll (fuel0 + 1) env cs m0 = some m01 ∧ SameBeats m1 m01 ∧
      (∀ c ∈ cs, getRx c.1 m1 = []) ∧
      (∀ r, (∀ c ∈ cs, r ≠ c.1) → getRx r m1 = getRx r m) ∧
      (∀ r, getRx r m01 = getRx r m0) := by
  induction cs generalizing m m0 with
  | nil => exact ⟨m, m0, rfl, rfl, h, by simp, fun _ _ => rfl, fun _ => rfl⟩
  | cons c cs ih =>
    have hnd0 : (c.1 :: cs.map (fun c => c.1)).Nodup := hnd
    obtain ⟨hc1, hnd1⟩ := List.nodup_cons.mp hnd0
    have hne : ∀ d ∈ cs, d.1 ≠ c.1 := by
      intro d hd heq
      exact hc1 (List.mem_map.mpr ⟨d, hd, heq⟩)
    obtain ⟨m1, m01, e1, e01, s1, q1, f1, f01⟩ :=
      service_sameBeats sk c (hcs c (List.mem_cons_self c cs)) fuel fuel0 env h
        (hfuel c (List.mem_cons_self c cs)) (h0 c (List.mem_cons_self c cs))
    obtain ⟨m2, m02, e2, e02, s2, q2, f2, f02⟩ :=
      ih (fun d hd => hcs d (List.mem_cons_of_mem c hd)) hnd1 s1
        (fun d hd => by rw [f1 d.1 (hne d hd)]; exact hfuel d (List.mem_cons_of_mem c hd))
        (fun d hd => by rw [f01 d.1]; exact h0 d (List.mem_cons_of_mem c hd))
    refine ⟨m2, m02, by simp [serviceAll, e1, e2], by simp [serviceAll, e01, e02], s2, ?_, ?_, ?_⟩
    · intro d hd
      rcases List.mem_cons.mp hd with rfl | hd
      · rw [f2 d.1 (fun e he => (hne e he).symm), q1]
      · exact q2 d hd
    · intro r hr
      rw [f2 r (fun d hd => hr d (List.mem_cons_of_mem c hd)),
        f1 r (hr c (List.mem_cons_self c cs))]
    · intro r
      rw [f02 r, f01 r]

theorem getRx_receive (arr : Port → List Int) (p : Port) (hp : p ≠ Port.usb) (m : Machine) :
    getRx p (receive arr m) = getRx p m ++ arr p := by
  cases p
  · exact absurd rfl hp
  all_goals rfl

theorem channels_nodup (sk : Sketch) : ((channels sk).map (fun c => c.1)).Nodup := by
  cases sk <;> simp [channels]

/-- The run under the ideal clock with bytes arriving, against the run in which
nothing arrives: both complete and carry the same heartbeats. -/
theorem runIdeal_sameBeats (sk : Sketch) (fuel fuel0 : Nat) (arr : Nat → Port → List Int)
    (hfuel : ∀ t p, (arr t p).length < fuel) (n t : Nat) {m m0 : Machine}
    (h : SameBeats m m0) (hq : ∀ c ∈ channels sk, getRx c.1 m = [])
    (hq0 : ∀ c ∈ channels sk, getRx c.1 m0 = []) :
    ∃ m1 m01, runIdeal sk fuel arr n t m = some m1 ∧
      runIdeal sk (fuel0 + 1) (fun _ _ => []) n t m0 = some m01 ∧ SameBeats m1 m01 := by
  induction n generalizing t m m0 with
  | zero => exact ⟨m, m0, rfl, rfl, h⟩
  | succ n ih =>
    obtain ⟨m1, m01, e1, e01, s1, q1, -, f01⟩ :=
      serviceAll_sameBeats sk fuel fuel0 (idealEnv t) (channels sk) (fun _ hc => hc)
        (channels_nodup sk) ((sameBeats_receive (arr t) m).trans h)
        (fun c hc => by
          rw [getRx_receive (arr t) c.1 (channels_port_ne_usb sk c hc), hq c hc]
          simpa using hfuel t c.1)
        hq0
    obtain ⟨m2, m02, e2, e02, s2⟩ :=
      ih (t + 1) s1 q1 (fun c hc => by rw [f01 c.1]; exact hq0 c hc)
    refine ⟨m2, m02, ?_, ?_, s2⟩
    · simp only [runIdeal, loop, e1, Option.some_bind, e2]
    · simp only [runIdeal, loop, receive_nothing, e01, Option.some_bind, e02]

/-- C4: in `3usarts`, with the three timers starting at time 0 and `loop()`
iterated once at every millisecond 0, 1, ..., 3200 of an ideal clock, whatever
bytes arrive on the ports before each iteration (the drain loops being given
enough turns for them), the run completes and `Serial1` has sent exactly the
three counter values 1, 2, 3, `Serial2` exactly the two values 2, 4 and `Serial3`
exactly the two values 3, 9; on each port the values are strictly increasing. -/
theorem scenario_3200_ms (fuel : Nat) (arr : Nat → Port → List Int)
    (hfuel : ∀ t p, (arr t p).length < fuel) :
    ∃ m, runIdeal .usarts3 fuel arr 3201 0 (Machine.init 0) = some m ∧
      sent .serial1 m.trace = [1, 2, 3] ∧
      sent .serial2 m.trace = [2, 4] ∧
      sent .serial3 m.trace = [3, 9] ∧
      (sent .serial1 m.trace).length = 3 ∧ (sent .serial2 m.trace).length = 2 ∧
      (sent .serial3 m.trace).length = 2 ∧
      (sent .serial1 m.trace).Pairwise (fun a b => a < b) ∧
      (sent .serial2 m.trace).Pairwise (fun a b => a < b) ∧
      (sent .serial3 m.trace).Pairwise (fun a b => a < b) := by
  obtain ⟨m1, m01, e1, e01, s1⟩ :=
    runIdeal_sameBeats .usarts3 fuel 0 arr hfuel 3201 0 (SameBeats.refl (Machine.init 0))
      (fun c hc => by
        simp only [channels, List.mem_cons, List.mem_singleton, List.not_mem_nil,
          or_false] at hc
        rcases hc with rfl | rfl | rfl <;> rfl)
      (fun c hc => by
        simp only [channels, List.mem_cons, List.mem_singleton, List.not_mem_nil,
          or_false] at hc
        rcases hc with rfl | rfl | rfl <;> rfl)
  have hidle : Machine.init 0 = idle3 0 0 0 0 [] 0 := by decide
  rw [hidle, runIdeal3_idle 0] at e01
  obtain rfl := Option.some.inj e01
  obtain ⟨-, -, -, -, -, -, -, -, hs⟩ := s1
  have b1 : sent .serial1 beats3200 = [1, 2, 3] := by decide
  have b2 : sent .serial2 beats3200 = [2, 4] := by decide
  have b3 : sent .serial3 beats3200 = [3, 9] := by decide
  refine ⟨m1, e1, ?_, ?_, ?_, ?_, ?_, ?_, ?_, ?_, ?_⟩ <;>
    simp only [hs, idle3, b1, b2, b3] <;> decide

/-- Witness of C4: the scenario with three bytes arriving on `Serial2`. -/
theorem scenario_3200_ms_witness :
    ∃ m, runIdeal .usarts3 4 echoArrivals 3201 0 (Machine.init 0) = some m ∧
      sent .serial1 m.trace = [1, 2, 3] ∧
      sent .serial2 m.trace = [2, 4] ∧
      sent .serial3 m.trace = [3, 9] ∧
      (sent .serial1 m.trace).length = 3 ∧ (sent .serial2 m.trace).length = 2 ∧
      (sent .serial3 m.trace).length = 2 ∧
      (sent .serial1 m.trace).Pairwise (fun a b => a < b) ∧
      (sent .serial2 m.trace).Pairwise (fun a b => a < b) ∧
      (sent .serial3 m.trace).Pairwise (fun a b => a < b) :=
  scenario_3200_ms 4 echoArrivals (fun t p => by
    unfold echoArrivals
    split <;> simp)

/-! ## The call trace of `setup()` of `xiao_usarts` -/

/-- The middle of `setup()` of `xiao_usarts` appends its calls to the trace,
uses four results of `pinPeripheral`, and changes nothing else. -/
theorem Xiao.bringUp_eq (b : Build) (env : Env) (m : Machine) :
    Xiao.bringUp b env m =
      (pinResults env m,
        { m with trace := m.trace ++ Xiao.bringUpTrace b, pinCalls := m.pinCalls + 4 }) := by
  obtain ⟨ua, om⟩ := b
  cases om <;>
    simp [Xiao.bringUp, Xiao.bringUpTrace, pinResults, pinPeripheral, call, USART_BAUD,
      PIO_SERCOM_ALT, A2, A3, A9, A10, List.append_assoc]

theorem Xiao.report_trace (e0 e1 e2 e3 : Int) (m : Machine) :
    (Xiao.report [e0, e1, e2, e3] m).trace = m.trace ++ Xiao.reportLines e0 e1 e2 e3 := by
  by_cases h0 : e0 = 0 <;> by_cases h1 : e1 = 0 <;> by_cases h2 : e2 = 0 <;>
    by_cases h3 : e3 = 0 <;>
    simp [Xiao.report, Xiao.reportLines, Xiao.reportPin, forUp, List.range', call, wrapInt,
      h0, h1, h2, h3, A2, A3, A9, A10]

/-! ## C5: the pins routed by `setup()` -/

/-- C5, at the failing input: in `xiao_usarts` built without `USE_ALT_SERIAL3`,
`setup()` passes the pins A10, A9, A2, A3 to `pinPeripheral`; the pins A10, A9
are the transmit and receive pin of `Serial2`, but A2, A3 are not the pins of
`Serial3`, which was constructed with transmit pin A4 and receive pin A5.  With
`USE_ALT_SERIAL3` the same calls do pass the pins of `Serial3`, and `3usarts`
passes `PIN_SERIAL3_TX`, `PIN_SERIAL3_RX` of the header it included. -/
theorem xiao_default_build_routes_other_pins (env : Env) (m : Machine) :
    pinsPassed ((Xiao.bringUp Xiao.defaultBuild env m).2.trace.drop m.trace.length)
      = [Xiao.Serial2.pinTX, Xiao.Serial2.pinRX, A2, A3] ∧
    (Xiao.Serial3 Xiao.defaultBuild).pinTX = A4 ∧
    (Xiao.Serial3 Xiao.defaultBuild).pinRX = A5 ∧
    A2 ≠ (Xiao.Serial3 Xiao.defaultBuild).pinTX ∧
    A3 ≠ (Xiao.Serial3 Xiao.defaultBuild).pinRX ∧
    pinsPassed ((Xiao.bringUp { useAltSerial3 := true, orderMatters := false } env m).2.trace.drop
        m.trace.length)
      = [Xiao.Serial2.pinTX, Xiao.Serial2.pinRX,
         (Xiao.Serial3 { useAltSerial3 := true, orderMatters := false }).pinTX,
         (Xiao.Serial3 { useAltSerial3 := true, orderMatters := false }).pinRX] ∧
    pinsPassed ((Usarts3.bringUp false env m).trace.drop m.trace.length)
      = [PIN_SERIAL2_TX, PIN_SERIAL2_RX, PIN_SERIAL3_TX, PIN_SERIAL3_RX] ∧
    pinsPassed ((Usarts3.bringUp true env m).trace.drop m.trace.length)
      = [PIN_SERIAL2_TX, PIN_SERIAL2_RX, PIN_SERIAL3ALT_TX, PIN_SERIAL3ALT_RX] := by
  refine ⟨?_, rfl, rfl, by decide, by decide, ?_, ?_, ?_⟩
  · rw [Xiao.bringUp_eq]
    simp only [List.drop_left]
    rfl
  · rw [Xiao.bringUp_eq]
    simp only [List.drop_left]
    rfl
  · simp [Usarts3.bringUp, pinPeripheral, call, pinsPassed, List.append_assoc]
  · simp [Usarts3.bringUp, pinPeripheral, call, pinsPassed, List.append_assoc]

/-! ## C6: the error report of `setup()` -/

/-- C6: in `setup()` of `xiao_usarts` the four `pinPeripheral` calls pass the
pins A10, A9, A2, A3 in this order and their return values fill `error[0..3]`;
for every 4-tuple of return values the report that follows prints the number of
non-zero values when there is one, prints
"Initialized all serial ports without error." if and only if all four are zero,
and otherwise prints exactly one line per non-zero value, in call order, naming
the pin passed to that call. -/
theorem setup_error_report (b : Build) (env : Env) (m : Machine) (e0 e1 e2 e3 : Int)
    (m1 : Machine) :
    (Xiao.bringUp b env m).1 = pinResults env m ∧
    pinsPassed ((Xiao.bringUp b env m).2.trace.drop m.trace.length) = [A10, A9, A2, A3] ∧
    (Xiao.report [e0, e1, e2, e3] m1).trace = m1.trace ++
      (if e0 = 0 ∧ e1 = 0 ∧ e2 = 0 ∧ e3 = 0 then
        [Call.println .usb "\nInitialized all serial ports without error."]
      else
        Call.printf .usb "** %d error%s while setting up the serial ports **\n"
            [.int ([e0, e1, e2, e3].countP (fun e => e ≠ 0)),
             .str (if [e0, e1, e2, e3].countP (fun e => e ≠ 0) > 1 then "s" else "")] ::
          (([(e0, A10), (e1, A9), (e2, A2), (e3, A3)].filter (fun x => x.1 ≠ 0)).map
            (fun x =>
              Call.printf .usb "  Pin A%d could not be reassigned to PIO_SERCOM_ALT\n"
                [.int x.2]))) ∧
    (Call.println .usb "\nInitialized all serial ports without error."
        ∈ (Xiao.report [e0, e1, e2, e3] m1).trace.drop m1.trace.length
      ↔ e0 = 0 ∧ e1 = 0 ∧ e2 = 0 ∧ e3 = 0) := by
  refine ⟨by rw [Xiao.bringUp_eq], ?_, Xiao.report_trace e0 e1 e2 e3 m1, ?_⟩
  · rw [Xiao.bringUp_eq]
    simp only [List.drop_left]
    obtain ⟨ua, om⟩ := b
    cases om <;> rfl
  · rw [Xiao.report_trace, List.drop_left]
    by_cases h : e0 = 0 ∧ e1 = 0 ∧ e2 = 0 ∧ e3 = 0
    · simp [Xiao.reportLines, h]
    · simp [Xiao.reportLines, h]

/-! ## The start of `setup()` -/

/-- The readiness wait makes no call and changes nothing but the numbers of
clock readings and readiness tests used. -/
theorem waitSerial_frame (fuel : Nat) (env : Env) (s : Nat) (m m1 : Machine)
    (h : waitSerial fuel env s m = some m1) :
    m1 = { m with millisCalls := m1.millisCalls, readyPolls := m1.readyPolls } := by
  induction fuel generalizing m with
  | zero => simp [waitSerial] at h
  | succ n ih =>
    simp only [waitSerial] at h
    split at h
    · split at h
      · have := ih _ h
        rw [this]
        rfl
      · obtain rfl := Option.some.inj h
        rfl
    · obtain rfl := Option.some.inj h
      rfl

/-- The countdown entered with `i = 8` needs ten tests of `i > -1`: nine that
succeed and the one that ends the loop. -/
theorem countdown_eight (fuel : Nat) (m : Machine) :
    countdown (fuel + 10) 8 m = some { m with trace := m.trace ++ countdownCalls } := by
  simp [countdown, wrapInt, call, countdownCalls, List.append_assoc]

theorem countdown_short (fuel : Nat) (hfuel : fuel < 10) (m : Machine) :
    countdown fuel 8 m = none := by
  interval_cases fuel <;> simp [countdown, wrapInt]

theorem startup_eq (fuel : Nat) (env : Env) (m : Machine) :
    startup fuel env m =
      (waitSerial fuel env (millis env m).1 (millis env m).2).bind
        (fun w => countdown fuel 8 (call (.println .usb "8 second initial delay") w)) := rfl

/-- When the start of `setup()` returns, it has made the calls `startupCalls`
and changed nothing but the numbers of clock readings and readiness tests. -/
theorem startup_frame (fuel : Nat) (env : Env) (m m1 : Machine)
    (h : startup fuel env m = some m1) :
    m1 = { m with trace := m.trace ++ startupCalls, millisCalls := m1.millisCalls,
                  readyPolls := m1.readyPolls } := by
  rw [startup_eq] at h
  cases hw : waitSerial fuel env (millis env m).1 (millis env m).2 with
  | none =>
    rw [hw] at h
    simp at h
  | some w =>
    rw [hw] at h
    simp only [Option.some_bind] at h
    have hf := waitSerial_frame fuel env _ _ w hw
    by_cases hfuel : fuel < 10
    · rw [countdown_short fuel hfuel] at h
      simp at h
    · obtain ⟨k, rfl⟩ : ∃ k, fuel = k + 10 := ⟨fuel - 10, by omega⟩
      rw [countdown_eight] at h
      obtain rfl := Option.some.inj h
      rw [hf]
      simp [call, millis, startupCalls]

/-! ## C7: `ORDER_MATTERS` -/

theorem bringUpCalls_append (a b : List Call) :
    bringUpCalls (a ++ b) = bringUpCalls a ++ bringUpCalls b := by
  simp [bringUpCalls]

theorem bringUpCalls_reportLines (e0 e1 e2 e3 : Int) :
    bringUpCalls (Xiao.reportLines e0 e1 e2 e3) = [] := by
  by_cases h0 : e0 = 0 <;> by_cases h1 : e1 = 0 <;> by_cases h2 : e2 = 0 <;>
    by_cases h3 : e3 = 0 <;>
    simp [Xiao.reportLines, bringUpCalls, h0, h1, h2, h3]

/-- The function `setup()` of `xiao_usarts` is its start followed by the
bring-up of the ports, the error report and the final message. -/
theorem Xiao.setup_eq (b : Build) (fuel : Nat) (env : Env) (m : Machine) :
    Xiao.setup b fuel env m =
      (startup fuel env m).map (fun m1 =>
        finish (Xiao.report (Xiao.bringUp b env m1).1 (Xiao.bringUp b env m1).2)) := by
  simp only [Xiao.setup]
  cases startup fuel env m <;> rfl

/-- The trace of a completed `setup()` of `xiao_usarts`. -/
theorem Xiao.setup_trace (b : Build) (fuel : Nat) (env : Env) (m m2 : Machine)
    (h : Xiao.setup b fuel env m = some m2) :
    ∃ m1, startup fuel env m = some m1 ∧
      m2.trace = m.trace ++ (startupCalls ++ (Xiao.bringUpTrace b ++
        (Xiao.reportLines (env.pinRet m.pinCalls) (env.pinRet (m.pinCalls + 1))
            (env.pinRet (m.pinCalls + 2)) (env.pinRet (m.pinCalls + 3)) ++
          [Call.println .usb "Setup completed, starting loop", Call.flush .usb]))) := by
  rw [Xiao.setup_eq] at h
  cases hs : startup fuel env m with
  | none =>
    rw [hs] at h
    simp at h
  | some m1 =>
    rw [hs] at h
    obtain rfl := Option.some.inj h
    have hf := startup_frame fuel env m m1 hs
    have hp : m1.pinCalls = m.pinCalls := by rw [hf]
    have ht : m1.trace = m.trace ++ startupCalls := by rw [hf]
    refine ⟨m1, rfl, ?_⟩
    beta_reduce
    rw [Xiao.bringUp_eq]
    simp only [pinResults, finish, call_trace, Xiao.report_trace, ht, hp, List.append_assoc]
    rfl

/-- C7: in `setup()` of `xiao_usarts`, with `ORDER_MATTERS` defined the call
`begin(115200)` of `Serial2` and of `Serial3` comes before both `pinPeripheral`
calls of the port; without it both `pinPeripheral` calls come before the
`begin`; `setup()` completes in one setting exactly when it does in the other,
and the calls made are the same up to their order. -/
theorem order_matters_only_reorders (useAlt : Bool) (fuel : Nat) (env : Env) (m : Machine) :
    (Xiao.setup { useAltSerial3 := useAlt, orderMatters := true } fuel env m).isSome
      = (Xiao.setup { useAltSerial3 := useAlt, orderMatters := false } fuel env m).isSome ∧
    ∀ mT mF : Machine,
      Xiao.setup { useAltSerial3 := useAlt, orderMatters := true } fuel env m = some mT →
      Xiao.setup { useAltSerial3 := useAlt, orderMatters := false } fuel env m = some mF →
      bringUpCalls (mT.trace.drop m.trace.length) =
        [Call.uartBegin .serial1 115200,
         Call.uartBegin .serial2 115200, Call.pinPeripheral A10 PIO_SERCOM_ALT,
         Call.pinPeripheral A9 PIO_SERCOM_ALT,
         Call.uartBegin .serial3 115200, Call.pinPeripheral A2 PIO_SERCOM_ALT,
         Call.pinPeripheral A3 PIO_SERCOM_ALT] ∧
      bringUpCalls (mF.trace.drop m.trace.length) =
        [Call.uartBegin .serial1 115200,
         Call.pinPeripheral A10 PIO_SERCOM_ALT, Call.pinPeripheral A9 PIO_SERCOM_ALT,
         Call.uartBegin .serial2 115200,
         Call.pinPeripheral A2 PIO_SERCOM_ALT, Call.pinPeripheral A3 PIO_SERCOM_ALT,
         Call.uartBegin .serial3 115200] ∧
      (mT.trace.drop m.trace.length).Perm (mF.trace.drop m.trace.length) := by
  refine ⟨by rw [Xiao.setup_eq, Xiao.setup_eq]; simp, ?_⟩
  intro mT mF hT hF
  obtain ⟨_, -, tT⟩ := Xiao.setup_trace _ fuel env m mT hT
  obtain ⟨_, -, tF⟩ := Xiao.setup_trace _ fuel env m mF hF
  rw [tT, tF, List.drop_left, List.drop_left]
  refine ⟨?_, ?_, ?_⟩
  · simp only [bringUpCalls_append, bringUpCalls_reportLines]
    rfl
  · simp only [bringUpCalls_append, bringUpCalls_reportLines]
    rfl
  · refine List.Perm.append_left _ (List.Perm.append_right _ ?_)
    cases useAlt <;> decide

/-- Witness of C7: the two orders under `failingEnv`. -/
theorem order_matters_only_reorders_witness :
    Xiao.setup { useAltSerial3 := false, orderMatters := true } 10 failingEnv (Machine.init 0)
      = some afterSetupOrdered ∧
    Xiao.setup { useAltSerial3 := false, orderMatters := false } 10 failingEnv (Machine.init 0)
      = some afterSetupDefault ∧
    (afterSetupOrdered.trace.drop (Machine.init 0).trace.length).Perm
      (afterSetupDefault.trace.drop (Machine.init 0).trace.length) :=
  ⟨by decide, by decide,
    ((order_matters_only_reorders false 10 failingEnv (Machine.init 0)).2
      afterSetupOrdered afterSetupDefault (by decide) (by decide)).2.2⟩

/-! ## C8: pin routing failures do not reach `loop()` -/

theorem call_prefixed (tr : List Call) (c : Call) (m : Machine) :
    call c (prefixed tr m) = prefixed tr (call c m) := by
  simp [call, prefixed, List.append_assoc]

theorem setTimer_prefixed (tr : List Call) (p : Port) (t : Nat) (m : Machine) :
    setTimer p t (prefixed tr m) = prefixed tr (setTimer p t m) := by
  cases p <;> rfl

theorem setRx_prefixed (tr : List Call) (p : Port) (q : List Int) (m : Machine) :
    setRx p q (prefixed tr m) = prefixed tr (setRx p q m) := by
  cases p <;> rfl

theorem getRx_prefixed (tr : List Call) (p : Port) (m : Machine) :
    getRx p (prefixed tr m) = getRx p m := by
  cases p <;> rfl

theorem getTimer_prefixed (tr : List Call) (p : Port) (m : Machine) :
    getTimer p (prefixed tr m) = getTimer p m := by
  cases p <;> rfl

theorem millis_prefixed (tr : List Call) (env : Env) (m : Machine) :
    millis env (prefixed tr m) = ((millis env m).1, prefixed tr (millis env m).2) := rfl

/-- No timer block body reads the trace. -/
theorem body_prefixed (sk : Sketch) (c : Port × Nat × (Machine → Machine))
    (hc : c ∈ channels sk) (tr : List Call) (m : Machine) :
    c.2.2 (prefixed tr m) = prefixed tr (c.2.2 m) := by
  cases sk <;>
    simp only [channels, List.mem_cons, List.mem_singleton, List.not_mem_nil, or_false] at hc
  · rcases hc with rfl | rfl | rfl <;>
      simp [sendSerial1, sendSerial2, sendSerial3, call, prefixed, List.append_assoc]
  · rcases hc with rfl | rfl | rfl | rfl <;>
      simp [sendSerial1, sendSerial2, sendSerial3, sendSerial4, call, prefixed,
        List.append_assoc]
  · rcases hc with rfl | rfl | rfl <;>
      simp [sendSerial1, sendServiceCount2, sendServiceCount3, call, prefixed,
        List.append_assoc]

theorem timerBlock_prefixed (sk : Sketch) (c : Port × Nat × (Machine → Machine))
    (hc : c ∈ channels sk) (env : Env) (tr : List Call) (m : Machine) :
    timerBlock env c.1 c.2.1 c.2.2 (prefixed tr m)
      = prefixed tr (timerBlock env c.1 c.2.1 c.2.2 m) := by
  simp only [timerBlock, millis_prefixed, getTimer_prefixed]
  split
  · rw [body_prefixed sk c hc, millis_prefixed, setTimer_prefixed]
  · rfl

theorem drain_prefixed (fuel : Nat) (p : Port) (tr : List Call) (m : Machine) :
    drain fuel p (prefixed tr m) = (drain fuel p m).map (prefixed tr) := by
  induction fuel generalizing m with
  | zero => rfl
  | succ n ih =>
    simp only [drain, available, read, getRx_prefixed]
    cases hq : getRx p m with
    | nil => simp
    | cons b q =>
      simp only [List.length_cons, ne_eq, Nat.add_one_ne_zero, not_false_eq_true, if_true]
      rw [setRx_prefixed, call_prefixed, call_prefixed, ih]

theorem serviceAll_prefixed (sk : Sketch) (fuel : Nat) (env : Env)
    (cs : List (Port × Nat × (Machine → Machine))) (hcs : ∀ c ∈ cs, c ∈ channels sk)
    (tr : List Call) (m : Machine) :
    serviceAll fuel env cs (prefixed tr m) = (serviceAll fuel env cs m).map (prefixed tr) := by
  induction cs generalizing m with
  | nil => rfl
  | cons c cs ih =>
    simp only [serviceAll, service, drain_prefixed]
    cases drain fuel c.1 m with
    | none => rfl
    | some m1 =>
      simp only [Option.map_some', Option.some_bind]
      rw [timerBlock_prefixed sk c (hcs c (List.mem_cons_self c cs)),
        ih (fun d hd => hcs d (List.mem_cons_of_mem c hd))]

/-- An iteration of `loop()` never reads the trace: calls put in front of the
trace stay in front of it and change nothing else. -/
theorem loop_prefixed (sk : Sketch) (fuel : Nat) (env : Env) (tr : List Call) (m : Machine) :
    loop sk fuel env (prefixed tr m) = (loop sk fuel env m).map (prefixed tr) :=
  serviceAll_prefixed sk fuel env (channels sk) (fun _ hc => hc) tr m

theorem step_prefixed (fuel : Nat) (env : Env) (e : Xiao.Event) (tr : List Call)
    (m : Machine) :
    Xiao.step fuel env e (prefixed tr m) = (Xiao.step fuel env e m).map (prefixed tr) := by
  cases e with
  | iterate => exact loop_prefixed .xiao fuel env tr m
  | byte1 b => rfl
  | byte2 b => rfl
  | byte3 b => rfl

theorem exec_prefixed (fuel : Nat) (env : Env) (es : List Xiao.Event) (tr : List Call)
    (m : Machine) :
    Xiao.exec fuel env es (prefixed tr m) = (Xiao.exec fuel env es m).map (prefixed tr) := by
  induction es generalizing m with
  | nil => rfl
  | cons e es ih =>
    simp only [Xiao.exec, step_prefixed]
    cases Xiao.step fuel env e m with
    | none => rfl
    | some m1 =>
      simp only [Option.map_some', Option.some_bind]
      rw [ih]

theorem millis_congr (env env1 : Env) (hclock : env1.clock = env.clock) (m : Machine) :
    millis env1 m = millis env m := by
  simp only [millis, hclock]

theorem timerBlock_congr (env env1 : Env) (hclock : env1.clock = env.clock) (p : Port)
    (iv : Nat) (body : Machine → Machine) (m : Machine) :
    timerBlock env1 p iv body m = timerBlock env p iv body m := by
  simp only [timerBlock, millis_congr env env1 hclock]

theorem serviceAll_congr (env env1 : Env) (hclock : env1.clock = env.clock) (fuel : Nat)
    (cs : List (Port × Nat × (Machine → Machine))) (m : Machine) :
    serviceAll fuel env1 cs m = serviceAll fuel env cs m := by
  induction cs generalizing m with
  | nil => rfl
  | cons c cs ih =>
    simp only [serviceAll, service]
    cases drain fuel c.1 m with
    | none => rfl
    | some m1 =>
      simp only [Option.map_some', Option.some_bind]
      rw [timerBlock_congr env env1 hclock, ih]

/-- An iteration of `loop()` uses the environment through the clock only. -/
theorem loop_congr (env env1 : Env) (hclock : env1.clock = env.clock) (sk : Sketch)
    (fuel : Nat) (m : Machine) : loop sk fuel env1 m = loop sk fuel env m :=
  serviceAll_congr env env1 hclock fuel (channels sk) m

theorem exec_congr (env env1 : Env) (hclock : env1.clock = env.clock) (fuel : Nat)
    (es : List Xiao.Event) (m : Machine) :
    Xiao.exec fuel env1 es m = Xiao.exec fuel env es m := by
  induction es generalizing m with
  | nil => rfl
  | cons e es ih =>
    have hstep : Xiao.step fuel env1 e m = Xiao.step fuel env e m := by
      cases e with
      | iterate => exact loop_congr env env1 hclock .xiao fuel m
      | byte1 b => rfl
      | byte2 b => rfl
      | byte3 b => rfl
    simp only [Xiao.exec, hstep]
    cases Xiao.step fuel env e m with
    | none => rfl
    | some m1 =>
      simp only [Option.some_bind]
      rw [ih]

theorem waitSerial_congr (env env1 : Env) (hclock : env1.clock = env.clock)
    (hready : env1.ready = env.ready) (fuel s : Nat) (m : Machine) :
    waitSerial fuel env1 s m = waitSerial fuel env s m := by
  induction fuel generalizing m with
  | zero => rfl
  | succ n ih =>
    simp only [waitSerial, serialUp, hready, millis_congr env env1 hclock, ih]

/-- The start of `setup()` uses the environment through the clock and the
readiness of `Serial` only. -/
theorem startup_congr (env env1 : Env) (hclock : env1.clock = env.clock)
    (hready : env1.ready = env.ready) (fuel : Nat) (m : Machine) :
    startup fuel env1 m = startup fuel env m := by
  rw [startup_eq, startup_eq, millis_congr env env1 hclock,
    waitSerial_congr env env1 hclock hready]

theorem Xiao.report_eq (e0 e1 e2 e3 : Int) (m : Machine) :
    Xiao.report [e0, e1, e2, e3] m
      = { m with trace := m.trace ++ Xiao.reportLines e0 e1 e2 e3 } := by
  by_cases h0 : e0 = 0 <;> by_cases h1 : e1 = 0 <;> by_cases h2 : e2 = 0 <;>
    by_cases h3 : e3 = 0 <;>
    simp [Xiao.report, Xiao.reportLines, Xiao.reportPin, forUp, List.range', call, wrapInt,
      h0, h1, h2, h3, A2, A3, A9, A10]

/-- A completed `setup()` of `xiao_usarts` leaves the state in which its start
ended, with four more `pinPeripheral` calls counted and its calls traced. -/
theorem Xiao.setup_frame (b : Build) (fuel : Nat) (env : Env) (m m2 : Machine)
    (h : Xiao.setup b fuel env m = some m2) :
    ∃ m1, startup fuel env m = some m1 ∧
      m2 = { m1 with trace := m2.trace, pinCalls := m1.pinCalls + 4 } := by
  rw [Xiao.setup_eq] at h
  cases hs : startup fuel env m with
  | none =>
    rw [hs] at h
    simp at h
  | some m1 =>
    rw [hs] at h
    obtain rfl := Option.some.inj h
    refine ⟨m1, rfl, ?_⟩
    beta_reduce
    rw [Xiao.bringUp_eq]
    simp only [pinResults, Xiao.report_eq, finish, call]

theorem begin_mem_bringUpTrace (b : Build) :
    Call.uartBegin .serial1 115200 ∈ Xiao.bringUpTrace b ∧
    Call.uartBegin .serial2 115200 ∈ Xiao.bringUpTrace b ∧
    Call.uartBegin .serial3 115200 ∈ Xiao.bringUpTrace b := by
  obtain ⟨ua, om⟩ := b
  cases om <;> simp [Xiao.bringUpTrace]

/-- C8: take two runs of `xiao_usarts` that differ only in the values returned
by the `pinPeripheral` calls of `setup()`.  Then `setup()` completes in one run
exactly when it does in the other; when it completes it has called `begin` on
`Serial1`, `Serial2` and `Serial3`, and the two states after `setup()` differ in
the trace only.  Every run of iterations of `loop()` and interrupts that follows,
under the same clock and with the same bytes received, completes in one run
exactly when it does in the other, makes the same calls (`out`) in both, and
ends in states that differ in the trace only: the drain and timer decisions and
the outputs on every port are the same. -/
theorem pin_failures_are_isolated (b : Build) (fuel : Nat) (env env1 : Env)
    (hclock : env1.clock = env.clock) (hready : env1.ready = env.ready) (m : Machine) :
    (Xiao.setup b fuel env1 m).isSome = (Xiao.setup b fuel env m).isSome ∧
    ∀ m2 m3 : Machine, Xiao.setup b fuel env m = some m2 →
      Xiao.setup b fuel env1 m = some m3 →
      (Call.uartBegin .serial1 115200 ∈ m3.trace.drop m.trace.length ∧
        Call.uartBegin .serial2 115200 ∈ m3.trace.drop m.trace.length ∧
        Call.uartBegin .serial3 115200 ∈ m3.trace.drop m.trace.length) ∧
      m3 = { m2 with trace := m3.trace } ∧
      ∀ (fuelL : Nat) (es : List Xiao.Event),
        (Xiao.exec fuelL env1 es m3).isSome = (Xiao.exec fuelL env es m2).isSome ∧
        ∀ r r1 : Machine, Xiao.exec fuelL env es m2 = some r →
          Xiao.exec fuelL env1 es m3 = some r1 →
          ∃ out, r.trace = m2.trace ++ out ∧ r1.trace = m3.trace ++ out ∧
            r1 = { r with trace := r1.trace } := by
  refine ⟨by rw [Xiao.setup_eq, Xiao.setup_eq, startup_congr env env1 hclock hready]; simp, ?_⟩
  intro m2 m3 h2 h3
  obtain ⟨m1, hs, e2⟩ := Xiao.setup_frame b fuel env m m2 h2
  obtain ⟨m1', hs', e3⟩ := Xiao.setup_frame b fuel env1 m m3 h3
  rw [startup_congr env env1 hclock hready, hs] at hs'
  obtain rfl := Option.some.inj hs'
  obtain ⟨_, -, t3⟩ := Xiao.setup_trace b fuel env1 m m3 h3
  have hb := begin_mem_bringUpTrace b
  refine ⟨?_, ?_, ?_⟩
  · rw [t3, List.drop_left]
    simp only [List.mem_append]
    exact ⟨Or.inr (Or.inl hb.1), Or.inr (Or.inl hb.2.1), Or.inr (Or.inl hb.2.2)⟩
  · rw [e3, e2]
  · intro fuelL es
    have p2 : m2 = prefixed m2.trace { m1 with trace := [], pinCalls := m1.pinCalls + 4 } := by
      rw [e2]
      simp [prefixed]
    have p3 : m3 = prefixed m3.trace { m1 with trace := [], pinCalls := m1.pinCalls + 4 } := by
      rw [e3]
      simp [prefixed]
    rw [exec_congr env env1 hclock, p2, p3, exec_prefixed, exec_prefixed]
    cases Xiao.exec fuelL env es { m1 with trace := [], pinCalls := m1.pinCalls + 4 } with
    | none => simp
    | some r0 =>
      refine ⟨rfl, ?_⟩
      intro r r1 hr hr1
      obtain rfl := Option.some.inj hr
      obtain rfl := Option.some.inj hr1
      exact ⟨r0.trace, by simp [prefixed], by simp [prefixed], rfl⟩

/-- Witness of C8: the default build with no failure and with two failures. -/
theorem pin_failures_are_isolated_witness :
    failingEnv.clock = succeedingEnv.clock ∧ failingEnv.ready = succeedingEnv.ready ∧
    Xiao.setup Xiao.defaultBuild 10 succeedingEnv (Machine.init 0) = some afterSetupClean ∧
    Xiao.setup Xiao.defaultBuild 10 failingEnv (Machine.init 0) = some afterSetupDefault ∧
    Xiao.exec 3 succeedingEnv sampleEvents afterSetupClean = some afterRunClean ∧
    Xiao.exec 3 failingEnv sampleEvents afterSetupDefault = some afterRunFailing ∧
    ∃ out, afterRunClean.trace = afterSetupClean.trace ++ out ∧
      afterRunFailing.trace = afterSetupDefault.trace ++ out ∧
      afterRunFailing = { afterRunClean with trace := afterRunFailing.trace } :=
  ⟨rfl, rfl, by decide, by decide, by decide, by decide,
    ((((pin_failures_are_isolated Xiao.defaultBuild 10 succeedingEnv failingEnv rfl rfl
      (Machine.init 0)).2 afterSetupClean afterSetupDefault (by decide) (by decide)).2.2
        3 sampleEvents).2 afterRunClean afterRunFailing (by decide) (by decide))⟩

/-! ## C9: the channel table of `4usarts` -/

/-- C9: in the four-channel configuration (`Serial1` on SERCOM4 with TX A6 / RX
A7, `Serial2` on SERCOM0 with TX 10 / RX 9, `Serial3` on SERCOM2 with TX 4 / RX
5, `Serial4` on SERCOM1 with TX 17 / RX 18) no two ports use the same module,
the eight pins are pairwise distinct, and the handler declared for each extra
port is the handler of the port's own module. -/
theorem four_channel_table_is_conflict_free :
    Usarts4.table.map (fun d => (d.sercom, d.pinTX, d.pinRX))
      = [(4, 6, 7), (0, 10, 9), (2, 4, 5), (1, 17, 18)] ∧
    (Usarts4.table.map (fun d => d.sercom)).Nodup ∧
    (Usarts4.table.flatMap (fun d => [d.pinTX, d.pinRX])).Nodup ∧
    Usarts4.declaredHandler .serial2 = sercomHandlerName Usarts4.Serial2.sercom ∧
    Usarts4.declaredHandler .serial3 = sercomHandlerName Usarts4.Serial3.sercom ∧
    Usarts4.declaredHandler .serial4 = sercomHandlerName Usarts4.Serial4.sercom := by
  refine ⟨by decide, by decide, by decide, by decide, by decide, by decide⟩

/-! ## C10: the interrupt handlers of `xiao_usarts` -/

/-- C10, counterexample: `SERCOM0_Handler` run on the initial state when the
byte 65 has arrived does not leave the state that the `IrqHandler` call alone
would leave: it has also counted the interrupt in `serviceCount2`. -/
theorem handler_only_forwards_counterexample :
    Xiao.SERCOM0_Handler (storeByte 65) (Machine.init 0)
      ≠ setRx .serial2 (storeByte 65 (getRx .serial2 (Machine.init 0))) (Machine.init 0) ∧
    (Xiao.SERCOM0_Handler (storeByte 65) (Machine.init 0)).serviceCount2 = 1 ∧
    (Machine.init 0).serviceCount2 = 0 := by
  decide

/-- C10, amended: each interrupt handler of `xiao_usarts` counts the interrupt in
the counter of its port (`serviceCount2` for `SERCOM0_Handler`, `serviceCount3`
for `SERCOM2_Handler`) and forwards to the `IrqHandler` of the port that owns
the module (`Serial2` for SERCOM0, `Serial3` for SERCOM2); apart from that counter
and from what the `IrqHandler` call changes, the state after the handler is the
state before it. -/
theorem handler_counts_and_forwards (IrqHandler : List Int → List Int) (m : Machine) :
    (Xiao.SERCOM0_Handler IrqHandler m).serviceCount2 = wrapInt (m.serviceCount2 + 1) ∧
    { Xiao.SERCOM0_Handler IrqHandler m with serviceCount2 := m.serviceCount2 }
      = setRx .serial2 (IrqHandler (getRx .serial2 m)) m ∧
    (Xiao.SERCOM2_Handler IrqHandler m).serviceCount3 = wrapInt (m.serviceCount3 + 1) ∧
    { Xiao.SERCOM2_Handler IrqHandler m with serviceCount3 := m.serviceCount3 }
      = setRx .serial3 (IrqHandler (getRx .serial3 m)) m :=
  ⟨rfl, rfl, rfl, rfl⟩

/-! ## C11: the readiness wait -/

/-- The readiness wait ends at the latest with the test number `k` (counted from
0) at which `Serial` is up or the clock reading is at least 10000 ms after the
start reading. -/
theorem waitSerial_bounded (env : Env) (s k : Nat) (fuel : Nat) (m : Machine)
    (hfuel : k < fuel)
    (hend : env.ready (m.readyPolls + k) = true ∨
      10000 ≤ usub (env.clock (m.millisCalls + k) % ULONG_MOD) s) :
    ∃ w, waitSerial fuel env s m = some w ∧ w.readyPolls ≤ m.readyPolls + k + 1 := by
  induction k generalizing fuel m with
  | zero =>
    obtain ⟨n, rfl⟩ : ∃ n, fuel = n + 1 := ⟨fuel - 1, by omega⟩
    simp only [waitSerial, serialUp, millis]
    rcases hend with h | h
    · simp only [Nat.add_zero] at h
      simp [h]
    · simp only [Nat.add_zero] at h
      cases hr : env.ready m.readyPolls
      · simp [Nat.not_lt.mpr h]
      · simp
  | succ k ih =>
    obtain ⟨n, rfl⟩ : ∃ n, fuel = n + 1 := ⟨fuel - 1, by omega⟩
    simp only [waitSerial, serialUp, millis]
    cases hr : env.ready m.readyPolls
    · simp only [Bool.not_false, if_true]
      split
      · obtain ⟨w, hw, hle⟩ := ih n
          { m with readyPolls := m.readyPolls + 1, millisCalls := m.millisCalls + 1 }
          (by omega)
          (by
            rcases hend with h | h
            · left
              rw [← h]
              congr 1
              simp only []
              omega
            · right
              rw [show m.millisCalls + 1 + k = m.millisCalls + (k + 1) by omega]
              exact h)
        exact ⟨w, hw, by simp only [] at hle; omega⟩
      · exact ⟨_, rfl, by simp only []; omega⟩
    · exact ⟨_, rfl, by simp only []; omega⟩

/-- C11: the readiness wait at the start of `setup()` is bounded.  Let `s` be the
start reading.  If at the test number `k` of the wait condition `Serial` is up,
or the clock reading `t` satisfies `(t - s) mod 2^32 >= 10000` whether or not
`Serial` is up, then the wait ends with that test at the latest, and `setup()`
of each sketch goes on: it makes the calls of the announcement and the countdown
and completes. -/
theorem readiness_wait_is_bounded (env : Env) (m : Machine) (k fuel : Nat)
    (hfuel : k < fuel) (hten : 10 ≤ fuel)
    (hend : env.ready (m.readyPolls + k) = true ∨
      (10000 : Int) ≤
        (((env.clock (m.millisCalls + 1 + k) % 4294967296 : Nat) : Int)
          - ((env.clock m.millisCalls % 4294967296 : Nat) : Int)) % 4294967296) :
    ∃ w m1, waitSerial fuel env (millis env m).1 (millis env m).2 = some w ∧
      w.readyPolls ≤ m.readyPolls + k + 1 ∧
      startup fuel env m = some m1 ∧ m1.trace = m.trace ++ startupCalls ∧
      (∀ ua, (Usarts3.setup ua fuel env m).isSome = true) ∧
      (Usarts4.setup fuel env m).isSome = true ∧
      (∀ b, (Xiao.setup b fuel env m).isSome = true) := by
  obtain ⟨w, hw, hle⟩ := waitSerial_bounded env (millis env m).1 k fuel (millis env m).2 hfuel
    (by
      rcases hend with h | h
      · exact Or.inl h
      · right
        have e := usub_eq_emod (env.clock (m.millisCalls + 1 + k) % 4294967296)
          (env.clock m.millisCalls % 4294967296)
        show 10000 ≤ usub (env.clock (m.millisCalls + 1 + k) % ULONG_MOD)
          (env.clock m.millisCalls % ULONG_MOD)
        simp only [ULONG_MOD]
        omega)
  obtain ⟨n, rfl⟩ : ∃ n, fuel = n + 10 := ⟨fuel - 10, by omega⟩
  have hs : startup (n + 10) env m
      = some { call (.println .usb "8 second initial delay") w with
          trace := (call (.println .usb "8 second initial delay") w).trace ++ countdownCalls } := by
    rw [startup_eq, hw]
    simp only [Option.some_bind]
    rw [countdown_eight]
  have hf := waitSerial_frame _ env _ _ w hw
  refine ⟨w, _, hw, hle, hs, ?_, ?_, ?_, ?_⟩
  · rw [hf]
    simp [call, millis, startupCalls]
  · intro ua
    simp [Usarts3.setup, hs]
  · simp [Usarts4.setup, hs]
  · intro b
    simp [Xiao.setup, hs]

/-- Witness of C11: `Serial` never comes up, the second test reads the clock
10000 ms after the start and ends the wait. -/
theorem readiness_wait_is_bounded_witness :
    ∃ w m1, waitSerial 10 neverReadyEnv (millis neverReadyEnv (Machine.init 0)).1
        (millis neverReadyEnv (Machine.init 0)).2 = some w ∧
      w.readyPolls ≤ (Machine.init 0).readyPolls + 1 + 1 ∧
      startup 10 neverReadyEnv (Machine.init 0) = some m1 ∧
      m1.trace = (Machine.init 0).trace ++ startupCalls ∧
      (∀ ua, (Usarts3.setup ua 10 neverReadyEnv (Machine.init 0)).isSome = true) ∧
      (Usarts4.setup 10 neverReadyEnv (Machine.init 0)).isSome = true ∧
      (∀ b, (Xiao.setup b 10 neverReadyEnv (Machine.init 0)).isSome = true) :=
  readiness_wait_is_bounded neverReadyEnv (Machine.init 0) 1 10 (by decide) (by decide)
    (Or.inr (by decide))

/-! ## C13: the startup countdown -/

/-- C13, what the code does: the countdown announced as "8 second initial delay"
runs for `i` = 8, 7, ..., 0, makes nine `delay(1000)` calls and so waits 9000 ms,
not 8000 ms.  The countdown is the same in the three sketches. -/
theorem countdown_waits_nine_seconds (fuel : Nat) (m : Machine) :
    ∃ m1, countdown (fuel + 10) 8 m = some m1 ∧
      delaysOf (m1.trace.drop m.trace.length)
        = [1000, 1000, 1000, 1000, 1000, 1000, 1000, 1000, 1000] ∧
      (delaysOf (m1.trace.drop m.trace.length)).sum = 9000 ∧
      (delaysOf (m1.trace.drop m.trace.length)).sum ≠ 8000 ∧
      startupCalls.head? = some (Call.println .usb "8 second initial delay") ∧
      delaysOf startupCalls = delaysOf (m1.trace.drop m.trace.length) := by
  refine ⟨_, countdown_eight fuel m, ?_⟩
  simp only [List.drop_left]
  decide

/-! ## C12: the counter values of successive heartbeats -/

/-- C12, counterexample: under the non-decreasing clock `stallEnv` two iterations
of `loop()` of `3usarts` send the counter value 2 on `Serial2` twice in a row:
in the second iteration the timer of `Serial1` is tested at 1999 ms, 999 ms
after its last heartbeat, and the timer of `Serial2` at 2600 ms, 1300 ms after
its last heartbeat, so `runcount` is still 1. -/
theorem counter_strictly_increases_counterexample :
    Monotone stallEnv.clock ∧
    run .usarts3 1 stallEnv (fun _ _ => []) 2 0 (Machine.init 0) = some afterStall ∧
    sent .serial1 afterStall.trace = [1] ∧
    sent .serial2 afterStall.trace = [2, 2] ∧
    ¬ (sent .serial2 afterStall.trace).Pairwise (fun a b => a < b) := by
  refine ⟨?_, by decide, by decide, by decide, by decide⟩
  intro a b hab
  simp only [stallEnv]
  split_ifs <;> omega

theorem countersOk_transfer {B : Int} {m m1 : Machine} (hr : m1.runcount = m.runcount)
    (hs : ∀ p, sent p m1.trace = sent p m.trace) (h : CountersOk B m) : CountersOk B m1 := by
  unfold CountersOk at h ⊢
  rw [hr, hs, hs, hs, hs]
  exact h

theorem countersOk_of_sameBeats {B : Int} {m m1 : Machine} (hs : SameBeats m1 m)
    (h : CountersOk B m) : CountersOk B m1 :=
  countersOk_transfer hs.2.2.2.2.1 hs.2.2.2.2.2.2.2.2 h

theorem countersOk_mono {B C : Int} {m : Machine} (hBC : B ≤ C) (h : CountersOk B m) :
    CountersOk C m := by
  obtain ⟨h1, h2, h3⟩ := h
  exact ⟨h1, le_trans h2 hBC, h3⟩

theorem wrapInt_of_range (v : Int) (h1 : -2147483648 ≤ v) (h2 : v < 2147483648) :
    wrapInt v = v := by
  unfold wrapInt
  omega

theorem sent_beat (p q : Port) (report message : String) (v : Int) (hq : q ≠ Port.usb)
    (tr : List Call) :
    sent p (tr ++ [Call.printf .usb report [Arg.int v]] ++ [Call.flush .usb]
      ++ [Call.printf q message [Arg.int v]] ++ [Call.flush q])
      = if p = .usb then sent p tr ++ [v] else if q = p then sent p tr ++ [v] else sent p tr := by
  simp only [sent_append]
  cases p <;> cases q <;> first | exact absurd rfl hq | simp [sent, counterOf]

theorem countersOk_sendSerial1 {B : Int} {m : Machine} (h : CountersOk B m)
    (hB : B + 1 < 2147483648) : CountersOk (B + 1) (sendSerial1 m) := by
  obtain ⟨h0, hB0, p1, b1, p2, b2, p3, b3, p4, b4⟩ := h
  have hw : wrapInt (m.runcount + 1) = m.runcount + 1 :=
    wrapInt_of_range _ (by omega) (by omega)
  have hr : (sendSerial1 m).runcount = m.runcount + 1 := hw
  have ht : (sendSerial1 m).trace = m.trace
      ++ [Call.printf .usb "\nWriting runcount %d to Serial1\n" [Arg.int (m.runcount + 1)]]
      ++ [Call.flush .usb] ++ [Call.printf .serial1 "Serial1: %d\n" [Arg.int (m.runcount + 1)]]
      ++ [Call.flush .serial1] := by
    simp only [sendSerial1, call, hw]
  unfold CountersOk
  rw [hr, ht, sent_beat _ _ _ _ _ (by decide), sent_beat _ _ _ _ _ (by decide),
    sent_beat _ _ _ _ _ (by decide), sent_beat _ _ _ _ _ (by decide)]
  simp only [reduceCtorEq, if_false, if_true]
  refine ⟨by omega, by omega, ?_, ?_, p2, ?_, p3, ?_, p4, ?_⟩
  · rw [List.pairwise_append]
    refine ⟨p1, List.pairwise_singleton _ _, ?_⟩
    intro a ha b hb
    have := b1 a ha
    simp only [List.mem_singleton] at hb
    omega
  · intro v hv
    rcases List.mem_append.mp hv with hv | hv
    · have := b1 v hv
      omega
    · simp only [List.mem_singleton] at hv
      omega
  · intro v hv
    have := b2 v hv
    omega
  · intro v hv
    have := b3 v hv
    omega
  · intro v hv
    have := b4 v hv
    omega

theorem countersOk_sendSerial2 {B : Int} {m : Machine} (h : CountersOk B m)
    (hB : B * 4 < 2147483648) : CountersOk B (sendSerial2 m) := by
  obtain ⟨h0, hB0, p1, b1, p2, b2, p3, b3, p4, b4⟩ := h
  have hw : wrapInt (m.runcount * 2) = m.runcount * 2 :=
    wrapInt_of_range _ (by omega) (by omega)
  have hr : (sendSerial2 m).runcount = m.runcount := rfl
  have ht : (sendSerial2 m).trace = m.trace
      ++ [Call.printf .usb "\nWriting %d to Serial2\n" [Arg.int (m.runcount * 2)]]
      ++ [Call.flush .usb] ++ [Call.printf .serial2 "Serial2: %d\n" [Arg.int (m.runcount * 2)]]
      ++ [Call.flush .serial2] := by
    simp only [sendSerial2, call, hw]
  unfold CountersOk
  rw [hr, ht, sent_beat _ _ _ _ _ (by decide), sent_beat _ _ _ _ _ (by decide),
    sent_beat _ _ _ _ _ (by decide), sent_beat _ _ _ _ _ (by decide)]
  simp only [reduceCtorEq, if_false, if_true]
  refine ⟨h0, hB0, p1, b1, ?_, ?_, p3, b3, p4, b4⟩
  · rw [List.pairwise_append]
    refine ⟨p2, List.pairwise_singleton _ _, ?_⟩
    intro a ha b hb
    have := b2 a ha
    simp only [List.mem_singleton] at hb
    omega
  · intro v hv
    rcases List.mem_append.mp hv with hv | hv
    · exact b2 v hv
    · simp only [List.mem_singleton] at hv
      omega

theorem countersOk_sendSerial3 {B : Int} {m : Machine} (h : CountersOk B m)
    (hB : B * 4 < 2147483648) : CountersOk B (sendSerial3 m) := by
  obtain ⟨h0, hB0, p1, b1, p2, b2, p3, b3, p4, b4⟩ := h
  have hw : wrapInt (m.runcount * 3) = m.runcount * 3 :=
    wrapInt_of_range _ (by omega) (by omega)
  have hr : (sendSerial3 m).runcount = m.runcount := rfl
  have ht : (sendSerial3 m).trace = m.trace
      ++ [Call.printf .usb "\nWriting %d to Serial3\n" [Arg.int (m.runcount * 3)]]
      ++ [Call.flush .usb] ++ [Call.printf .serial3 "Serial3: %d\n" [Arg.int (m.runcount * 3)]]
      ++ [Call.flush .serial3] := by
    simp only [sendSerial3, call, hw]
  unfold CountersOk
  rw [hr, ht, sent_beat _ _ _ _ _ (by decide), sent_beat _ _ _ _ _ (by decide),
    sent_beat _ _ _ _ _ (by decide), sent_beat _ _ _ _ _ (by decide)]
  simp only [reduceCtorEq, if_false, if_true]
  refine ⟨h0, hB0, p1, b1, p2, b2, ?_, ?_, p4, b4⟩
  · rw [List.pairwise_append]
    refine ⟨p3, List.pairwise_singleton _ _, ?_⟩
    intro a ha b hb
    have := b3 a ha
    simp only [List.mem_singleton] at hb
    omega
  · intro v hv
    rcases List.mem_append.mp hv with hv | hv
    · exact b3 v hv
    · simp only [List.mem_singleton] at hv
      omega

theorem countersOk_sendSerial4 {B : Int} {m : Machine} (h : CountersOk B m)
    (hB : B * 4 < 2147483648) : CountersOk B (sendSerial4 m) := by
  obtain ⟨h0, hB0, p1, b1, p2, b2, p3, b3, p4, b4⟩ := h
  have hw : wrapInt (m.runcount * 4) = m.runcount * 4 :=
    wrapInt_of_range _ (by omega) (by omega)
  have hr : (sendSerial4 m).runcount = m.runcount := rfl
  have ht : (sendSerial4 m).trace = m.trace
      ++ [Call.printf .usb "\nWriting %d to Serial4\n" [Arg.int (m.runcount * 4)]]
      ++ [Call.flush .usb] ++ [Call.printf .serial4 "Serial4: %d\n" [Arg.int (m.runcount * 4)]]
      ++ [Call.flush .serial4] := by
    simp only [sendSerial4, call, hw]
  unfold CountersOk
  rw [hr, ht, sent_beat _ _ _ _ _ (by decide), sent_beat _ _ _ _ _ (by decide),
    sent_beat _ _ _ _ _ (by decide), sent_beat _ _ _ _ _ (by decide)]
  simp only [reduceCtorEq, if_false, if_true]
  refine ⟨h0, hB0, p1, b1, p2, b2, p3, b3, ?_, ?_⟩
  · rw [List.pairwise_append]
    refine ⟨p4, List.pairwise_singleton _ _, ?_⟩
    intro a ha b hb
    have := b4 a ha
    simp only [List.mem_singleton] at hb
    omega
  · intro v hv
    rcases List.mem_append.mp hv with hv | hv
    · exact b4 v hv
    · simp only [List.mem_singleton] at hv
      omega

theorem countersOk_millis {B : Int} (env : Env) {m : Machine} (h : CountersOk B m) :
    CountersOk B (millis env m).2 :=
  countersOk_transfer rfl (fun _ => rfl) h

theorem countersOk_setTimer {B : Int} (p : Port) (t : Nat) {m : Machine}
    (h : CountersOk B m) : CountersOk B (setTimer p t m) := by
  cases p <;> exact countersOk_transfer rfl (fun _ => rfl) h

/-- A timer block keeps the counters in order when its body does. -/
theorem countersOk_timerBlock {B C : Int} (hBC : B ≤ C) (env : Env) (p : Port) (iv : Nat)
    (body : Machine → Machine) (hbody : ∀ m, CountersOk B m → CountersOk C (body m))
    {m : Machine} (h : CountersOk B m) : CountersOk C (timerBlock env p iv body m) := by
  simp only [timerBlock]
  split
  · exact countersOk_setTimer p _ (countersOk_millis env (hbody _ (countersOk_millis env h)))
  · exact countersOk_mono hBC (countersOk_millis env h)

/-- The drain loop, when it returns, has changed neither the timers nor the
counters nor the heartbeats. -/
theorem drain_sameBeats (fuel : Nat) (p : Port) (m m1 : Machine)
    (h : drain fuel p m = some m1) : SameBeats m1 m := by
  induction fuel generalizing m with
  | zero => simp [drain] at h
  | succ n ih =>
    simp only [drain, available, read] at h
    cases hq : getRx p m with
    | nil =>
      rw [hq] at h
      simp only [List.length_nil, ne_eq, not_true_eq_false, if_false] at h
      obtain rfl := Option.some.inj h
      exact SameBeats.refl _
    | cons b q =>
      rw [hq] at h
      simp only [List.length_cons, ne_eq, Nat.add_one_ne_zero, not_false_eq_true,
        if_true] at h
      refine (ih _ h).trans ?_
      cases p <;>
        exact ⟨rfl, rfl, rfl, rfl, rfl, rfl, rfl, rfl, fun r => by
          simp [setRx, call, sent_append, sent, counterOf]⟩

/-- Servicing a port keeps the counters in order when the body of its timer
block does. -/
theorem countersOk_service {B C : Int} (hBC : B ≤ C) (fuel : Nat) (env : Env) (p : Port)
    (iv : Nat) (body : Machine → Machine)
    (hbody : ∀ m, CountersOk B m → CountersOk C (body m)) {m m1 : Machine}
    (h : CountersOk B m) (hs : service fuel env (p, iv, body) m = some m1) :
    CountersOk C m1 := by
  simp only [service] at hs
  cases hd : drain fuel p m with
  | none =>
    rw [hd] at hs
    simp at hs
  | some m2 =>
    rw [hd] at hs
    obtain rfl := Option.some.inj hs
    exact countersOk_timerBlock hBC env p iv body hbody
      (countersOk_of_sameBeats (drain_sameBeats fuel p m m2 hd) h)

/-- An iteration of `loop()` of `3usarts` or `4usarts` keeps the counters in
order; `runcount` grows by at most one. -/
theorem countersOk_loop (sk : Sketch) (hsk : sk = .usarts3 ∨ sk = .usarts4) (fuel : Nat)
    (env : Env) {B : Int} {m m1 : Machine} (h : CountersOk B m)
    (hB : (B + 1) * 4 < 2147483648) (hl : loop sk fuel env m = some m1) :
    CountersOk (B + 1) m1 := by
  have hB0 : 0 ≤ B := le_trans h.1 h.2.1
  have s1 : ∀ x, CountersOk B x → CountersOk (B + 1) (sendSerial1 x) :=
    fun x hx => countersOk_sendSerial1 hx (by omega)
  have s2 : ∀ x, CountersOk (B + 1) x → CountersOk (B + 1) (sendSerial2 x) :=
    fun x hx => countersOk_sendSerial2 hx hB
  have s3 : ∀ x, CountersOk (B + 1) x → CountersOk (B + 1) (sendSerial3 x) :=
    fun x hx => countersOk_sendSerial3 hx hB
  have s4 : ∀ x, CountersOk (B + 1) x → CountersOk (B + 1) (sendSerial4 x) :=
    fun x hx => countersOk_sendSerial4 hx hB
  rcases hsk with rfl | rfl
  · simp only [loop, channels, serviceAll, Option.bind_eq_some] at hl
    obtain ⟨a, ha, b, hb, c, hc, hm⟩ := hl
    obtain rfl := Option.some.inj hm
    have ka := countersOk_service (by omega) fuel env _ _ _ s1 h ha
    have kb := countersOk_service (le_refl _) fuel env _ _ _ s2 ka hb
    exact countersOk_service (le_refl _) fuel env _ _ _ s3 kb hc
  · simp only [loop, channels, serviceAll, Option.bind_eq_some] at hl
    obtain ⟨a, ha, b, hb, c, hc, d, hd, hm⟩ := hl
    obtain rfl := Option.some.inj hm
    have ka := countersOk_service (by omega) fuel env _ _ _ s1 h ha
    have kb := countersOk_service (le_refl _) fuel env _ _ _ s2 ka hb
    have kc := countersOk_service (le_refl _) fuel env _ _ _ s3 kb hc
    exact countersOk_service (le_refl _) fuel env _ _ _ s4 kc hd

/-- An iteration of `loop()` completes when every drain loop is given more
turns than bytes are waiting, and leaves the queues of its ports empty. -/
theorem loop_completes (sk : Sketch) (fuel : Nat) (env : Env) (m : Machine)
    (hfuel : ∀ c ∈ channels sk, (getRx c.1 m).length < fuel) :
    ∃ m1, loop sk fuel env m = some m1 ∧ ∀ c ∈ channels sk, getRx c.1 m1 = [] := by
  obtain ⟨m1, _, e1, -, -, q1, -, -⟩ :=
    @serviceAll_sameBeats sk fuel 0 env (channels sk) (fun _ hc => hc) (channels_nodup sk)
      m (emptied m) ⟨rfl, rfl, rfl, rfl, rfl, rfl, rfl, rfl, fun _ => rfl⟩ hfuel
      (fun c _ => by cases c.1 <;> rfl)
  exact ⟨m1, e1, q1⟩

theorem run_countersOk (sk : Sketch) (hsk : sk = .usarts3 ∨ sk = .usarts4) (fuel : Nat)
    (env : Env) (arr : Nat → Port → List Int) (hfuel : ∀ i p, (arr i p).length < fuel)
    (n i : Nat) (B : Int) (m : Machine) (h : CountersOk B m)
    (hB : (B + n) * 4 < 2147483648) (hq : ∀ c ∈ channels sk, getRx c.1 m = []) :
    ∃ m1, run sk fuel env arr n i m = some m1 ∧ CountersOk (B + n) m1 := by
  induction n generalizing i B m with
  | zero => exact ⟨m, rfl, by simpa using h⟩
  | succ n ih =>
    have hB0 : 0 ≤ B := le_trans h.1 h.2.1
    obtain ⟨m1, e1, q1⟩ := loop_completes sk fuel env (receive (arr i) m) (fun c hc => by
      rw [getRx_receive (arr i) c.1 (channels_port_ne_usb sk c hc), hq c hc]
      simpa using hfuel i c.1)
    have k1 := countersOk_loop sk hsk fuel env
      (countersOk_of_sameBeats (sameBeats_receive (arr i) m) h)
      (by push_cast at hB; omega) e1
    obtain ⟨m2, e2, k2⟩ := ih (i + 1) (B + 1) m1 k1 (by push_cast at hB ⊢; omega) q1
    refine ⟨m2, by simp only [run, e1, Option.some_bind, e2], ?_⟩
    have : B + 1 + (n : Int) = B + ((n + 1 : Nat) : Int) := by push_cast; omega
    rw [← this]
    exact k2

/-- C12, amended: in `3usarts` and `4usarts`, for every run of fewer than 2^29
iterations of `loop()` from the initial state (so that `runcount * 4` cannot
overflow), under any clock and whatever bytes arrive, the run completes, the
counter value of each heartbeat on `Serial1` is strictly greater than that of the
previous heartbeat on `Serial1`, and the counter value of each heartbeat on
`Serial2`, `Serial3`, `Serial4` is greater than or equal to that of the previous
heartbeat on the same port. -/
theorem counters_never_decrease (sk : Sketch) (hsk : sk = .usarts3 ∨ sk = .usarts4)
    (fuel : Nat) (env : Env) (arr : Nat → Port → List Int)
    (hfuel : ∀ i p, (arr i p).length < fuel) (n t0 : Nat) (hn : n < 536870912) :
    ∃ m, run sk fuel env arr n 0 (Machine.init t0) = some m ∧
      (sent .serial1 m.trace).Pairwise (fun a b => a < b) ∧
      (sent .serial2 m.trace).Pairwise (fun a b => a ≤ b) ∧
      (sent .serial3 m.trace).Pairwise (fun a b => a ≤ b) ∧
      (sent .serial4 m.trace).Pairwise (fun a b => a ≤ b) := by
  have h0 : CountersOk 0 (Machine.init t0) := by
    simp [CountersOk, Machine.init, sent]
  obtain ⟨m, e, k⟩ := run_countersOk sk hsk fuel env arr hfuel n 0 0 (Machine.init t0) h0
    (by omega) (fun c _ => by cases c.1 <;> rfl)
  exact ⟨m, e, k.2.2.1, k.2.2.2.2.1, k.2.2.2.2.2.2.1, k.2.2.2.2.2.2.2.2.1⟩

/-- Witness of C12 amended: the two iterations of `3usarts` under `stallEnv`. -/
theorem counters_never_decrease_witness :
    ∃ m, run .usarts3 1 stallEnv (fun _ _ => []) 2 0 (Machine.init 0) = some m ∧
      (sent .serial1 m.trace).Pairwise (fun a b => a < b) ∧
      (sent .serial2 m.trace).Pairwise (fun a b => a ≤ b) ∧
      (sent .serial3 m.trace).Pairwise (fun a b => a ≤ b) ∧
      (sent .serial4 m.trace).Pairwise (fun a b => a ≤ b) :=
  counters_never_decrease .usarts3 (Or.inl rfl) 1 stallEnv (fun _ _ => [])
    (fun _ _ => Nat.zero_lt_one) 2 0 (by decide)

end XiaoUsarts
